import Mathlib

/-!
# semu-c64: the top level of the emulator (`main.c`)

A shallow embedding of `main.c`: the physical address decoder
(`mem_fetch`, `mem_load`, `mem_store`), the SBI dispatcher
(`handle_sbi_ecall` and its three extension handlers) and the main loop of
`semu_start`, followed by theorems about them.

Conventions.
* `uint32_t` values are naturals; where the C code can wrap or truncate, the
  reduction modulo `2 ^ 32` is written out (`to_uint32`, `to_int32`, `not32`).
* `int32_t` values are integers.
* Functions of other translation units (`vm_step`, `plic_read`, ...) are
  fields of `Ext`: arbitrary transformers of the machine. Every call to one of
  them is appended to a log of `Call`s, so that "which handler was called" is
  a property of the result.
* Constants of the headers `riscv.h`, `riscv_private.h` and `device.h` are
  fields of `Consts`.
-/

namespace Semu

/-! ## Constants and build flags -/

/-- Constants, enumerators and build flags that `main.c` uses but does not
define (`riscv.h`, `riscv_private.h`, `device.h`, the compiler command line).
They are parameters of the embedding. The SBI and error identifiers are `int`
constants; `RAM_SIZE`, the exception causes and the interrupt bits are
non-negative. -/
structure Consts where
  /-- The `C64` preprocessor flag: build for the C64 with RAM in the REU. -/
  C64 : Bool
  /-- The value of `SEMU_HAS(VIRTIONET)`. -/
  HAS_VIRTIONET : Bool
  /-- The value of `SEMU_HAS(VIRTIOBLK)`. -/
  HAS_VIRTIOBLK : Bool
  RAM_SIZE : Nat
  RV_EXC_FETCH_FAULT : Nat
  RV_EXC_LOAD_FAULT : Nat
  RV_EXC_STORE_FAULT : Nat
  RV_EXC_ECALL_S : Nat
  RV_INT_STI_BIT : Nat
  IRQ_UART_BIT : Nat
  IRQ_VNET_BIT : Nat
  IRQ_VBLK_BIT : Nat
  RV_R_A0 : Nat
  RV_R_A1 : Nat
  RV_R_A6 : Nat
  RV_R_A7 : Nat
  ERR_NONE : Nat
  ERR_EXCEPTION : Nat
  SBI_SUCCESS : Int
  SBI_ERR_NOT_SUPPORTED : Int
  SBI_EID_BASE : Int
  SBI_EID_TIMER : Int
  SBI_EID_RST : Int
  SBI_BASE__GET_SBI_SPEC_VERSION : Int
  SBI_BASE__GET_SBI_IMPL_ID : Int
  SBI_BASE__GET_SBI_IMPL_VERSION : Int
  SBI_BASE__PROBE_EXTENSION : Int
  SBI_BASE__GET_MVENDORID : Int
  SBI_BASE__GET_MARCHID : Int
  SBI_BASE__GET_MIMPID : Int
  SBI_TIMER__SET_TIMER : Int
  SBI_RST__SYSTEM_RESET : Int

/-- A sample configuration, used to instantiate the theorems: the host build
with both virtio devices, 512 MiB of RAM, the cause and interrupt numbers of
the RISC-V privileged specification, the register numbers of the RISC-V ABI
(`a0` = x10, `a1` = x11, `a6` = x16, `a7` = x17) and the identifiers of the
SBI specification (`"TIME"` = 0x54494D45, `"SRST"` = 0x53525354). -/
def stdConsts : Consts where
  C64 := false
  HAS_VIRTIONET := true
  HAS_VIRTIOBLK := true
  RAM_SIZE := 512 * 1024 * 1024
  RV_EXC_FETCH_FAULT := 1
  RV_EXC_LOAD_FAULT := 5
  RV_EXC_STORE_FAULT := 7
  RV_EXC_ECALL_S := 9
  RV_INT_STI_BIT := 32
  IRQ_UART_BIT := 2
  IRQ_VNET_BIT := 4
  IRQ_VBLK_BIT := 8
  RV_R_A0 := 10
  RV_R_A1 := 11
  RV_R_A6 := 16
  RV_R_A7 := 17
  ERR_NONE := 0
  ERR_EXCEPTION := 1
  SBI_SUCCESS := 0
  SBI_ERR_NOT_SUPPORTED := -2
  SBI_EID_BASE := 0x10
  SBI_EID_TIMER := 0x54494D45
  SBI_EID_RST := 0x53525354
  SBI_BASE__GET_SBI_SPEC_VERSION := 0
  SBI_BASE__GET_SBI_IMPL_ID := 1
  SBI_BASE__GET_SBI_IMPL_VERSION := 2
  SBI_BASE__PROBE_EXTENSION := 3
  SBI_BASE__GET_MVENDORID := 4
  SBI_BASE__GET_MARCHID := 5
  SBI_BASE__GET_MIMPID := 6
  SBI_TIMER__SET_TIMER := 0
  SBI_RST__SYSTEM_RESET := 0

/-- The same configuration built with `C64` set (no virtio devices). -/
def c64Consts : Consts :=
  { stdConsts with C64 := true, HAS_VIRTIONET := false, HAS_VIRTIOBLK := false,
                   RAM_SIZE := 16 * 1024 * 1024 }

/-! ## Machine integers -/

/-- Conversion of an integer value to `uint32_t`: reduction modulo `2 ^ 32`. -/
def to_uint32 (i : Int) : Nat := (i % 4294967296).toNat

/-- Conversion of an integer value to `int32_t`: the representative of the
class modulo `2 ^ 32` in `[-2 ^ 31, 2 ^ 31)`. -/
def to_int32 (i : Int) : Int :=
  if i % 4294967296 < 2147483648 then i % 4294967296 else i % 4294967296 - 4294967296

/-- The operand `~b` of `x &= ~b` for a 32-bit `x`: the complement of `b` on
32 bits. -/
def not32 (b : Nat) : Nat := 4294967295 ^^^ (b % 4294967296)

/-- Modelled from the spec: `MASK(n)` is a macro of a header that is not among
the sources; the decoder uses `MASK(8)` to take "the next byte of the address",
so `MASK(n)` is the mask of the low `n` bits. -/
def MASK (n : Nat) : Nat := 2 ^ n - 1

/-! ## Data model -/

/-- Modelled from the spec: the declaration of `vm_t` (`riscv.h`) is not among
the sources. The fields are those `main.c` reads or writes (`x_regs`, `pc`,
`insn_count`, `insn_count_hi`, `error`, `exc_cause`, `exc_val`, `s_mode`,
`sip`, `page_table_addr`) and the remaining supervisor CSRs of the spec's hart
state. `x_regs` maps a register number to its 32-bit contents. -/
structure vm_t where
  x_regs : Nat → Nat
  pc : Nat
  insn_count : Nat
  insn_count_hi : Nat
  error : Nat
  exc_cause : Nat
  exc_val : Nat
  s_mode : Bool
  sstatus : Nat
  sie : Nat
  sip : Nat
  stvec : Nat
  sscratch : Nat
  sepc : Nat
  scause : Nat
  stval : Nat
  satp : Nat
  scounteren : Nat
  page_table_addr : Nat

/-- The fields of `plic_state_t` that `main.c` names. -/
structure plic_state_t where
  masked : Nat
  ip : Nat
  ie : Nat
  active : Nat

/-- The fields of `u8250_state_t` that `main.c` names. -/
structure u8250_state_t where
  in_ready : Bool
  in_char : Nat
  pending_ints : Nat
  in_fd : Int
  out_fd : Int

/-- The emulator state `emu_state_t` (`device.h`): the fields `main.c` names,
and `rest : D` for whatever else the devices and the host keep. `ram` is the
word array `data->ram`. -/
structure emu_state_t (D : Type) where
  stopped : Bool
  timer_lo : Nat
  timer_hi : Nat
  ram : Nat → Nat
  plic : plic_state_t
  uart : u8250_state_t
  vnet_InterruptStatus : Nat
  vblk_InterruptStatus : Nat
  rest : D

/-- The two globals `vm` and `emu` (`vm.priv` points to `emu`). -/
structure Machine (D : Type) where
  vm : vm_t
  emu : emu_state_t D

/-! ## SBI -/

/-- The implementation id `SBI_IMPL_ID`. -/
def SBI_IMPL_ID : Int := 0x999

/-- The implementation version `SBI_IMPL_VERSION`. -/
def SBI_IMPL_VERSION : Int := 1

/-- The vendor id `RV_MVENDORID`. -/
def RV_MVENDORID : Int := 0x12345678

/-- The architecture id `RV_MARCHID`, `(1UL << 31) | 1`. -/
def RV_MARCHID : Int := 2147483648 + 1

/-- The implementation id `RV_MIMPID`. -/
def RV_MIMPID : Int := 1

/-- The pair `sbi_ret_t` of two `int32_t`. -/
structure sbi_ret_t where
  error : Int
  value : Int

/-- The compound literal `(sbi_ret_t){e, v}`: both initialisers are converted
to `int32_t`. -/
def sbi_ret (e v : Int) : sbi_ret_t := ⟨to_int32 e, to_int32 v⟩

/-- The function `handle_sbi_ecall_TIMER`. -/
def handle_sbi_ecall_TIMER {D : Type} (K : Consts) (m : Machine D) (fid : Int) :
    Machine D × sbi_ret_t :=
  if fid = K.SBI_TIMER__SET_TIMER then
    ({ m with emu := { m.emu with timer_lo := m.vm.x_regs K.RV_R_A0,
                                  timer_hi := m.vm.x_regs K.RV_R_A1 } },
     sbi_ret K.SBI_SUCCESS 0)
  else
    (m, sbi_ret K.SBI_ERR_NOT_SUPPORTED 0)

/-- The function `handle_sbi_ecall_RST` (the message it prints is not
modelled). -/
def handle_sbi_ecall_RST {D : Type} (K : Consts) (m : Machine D) (fid : Int) :
    Machine D × sbi_ret_t :=
  if fid = K.SBI_RST__SYSTEM_RESET then
    ({ m with emu := { m.emu with stopped := true } }, sbi_ret K.SBI_SUCCESS 0)
  else
    (m, sbi_ret K.SBI_ERR_NOT_SUPPORTED 0)

/-- The function `handle_sbi_ecall_BASE`. The `case` labels of the `switch`
are tried in source order. -/
def handle_sbi_ecall_BASE {D : Type} (K : Consts) (m : Machine D) (fid : Int) :
    Machine D × sbi_ret_t :=
  if fid = K.SBI_BASE__GET_SBI_IMPL_ID then (m, sbi_ret K.SBI_SUCCESS SBI_IMPL_ID)
  else if fid = K.SBI_BASE__GET_SBI_IMPL_VERSION then
    (m, sbi_ret K.SBI_SUCCESS SBI_IMPL_VERSION)
  else if fid = K.SBI_BASE__GET_MVENDORID then (m, sbi_ret K.SBI_SUCCESS RV_MVENDORID)
  else if fid = K.SBI_BASE__GET_MARCHID then (m, sbi_ret K.SBI_SUCCESS RV_MARCHID)
  else if fid = K.SBI_BASE__GET_MIMPID then (m, sbi_ret K.SBI_SUCCESS RV_MIMPID)
  else if fid = K.SBI_BASE__GET_SBI_SPEC_VERSION then (m, sbi_ret K.SBI_SUCCESS 3)
  else if fid = K.SBI_BASE__PROBE_EXTENSION then
    let eid : Int := to_int32 (m.vm.x_regs K.RV_R_A0)
    let available : Bool :=
      eid = K.SBI_EID_BASE || eid = K.SBI_EID_TIMER || eid = K.SBI_EID_RST
    (m, sbi_ret K.SBI_SUCCESS (if available then 1 else 0))
  else (m, sbi_ret K.SBI_ERR_NOT_SUPPORTED 0)

/-- The macro `SBI_HANDLE(TYPE)`: the function id passed to a handler is
register `a6` converted to `int32_t`. -/
def sbi_fid {D : Type} (K : Consts) (m : Machine D) : Int :=
  to_int32 (m.vm.x_regs K.RV_R_A6)

/-- The `switch` of `handle_sbi_ecall`: the controlling expression is the
`uint32_t` register `a7`, so each `case` constant is converted to `uint32_t`.
The labels are tried in source order (C requires them to be distinct). -/
def sbi_dispatch {D : Type} (K : Consts) (m : Machine D) : Machine D × sbi_ret_t :=
  if m.vm.x_regs K.RV_R_A7 = to_uint32 K.SBI_EID_BASE then
    handle_sbi_ecall_BASE K m (sbi_fid K m)
  else if m.vm.x_regs K.RV_R_A7 = to_uint32 K.SBI_EID_TIMER then
    handle_sbi_ecall_TIMER K m (sbi_fid K m)
  else if m.vm.x_regs K.RV_R_A7 = to_uint32 K.SBI_EID_RST then
    handle_sbi_ecall_RST K m (sbi_fid K m)
  else (m, sbi_ret K.SBI_ERR_NOT_SUPPORTED 0)

/-- The function `handle_sbi_ecall`. -/
def handle_sbi_ecall {D : Type} (K : Consts) (m : Machine D) : Machine D :=
  let r := sbi_dispatch K m
  let m1 := r.1
  let ret := r.2
  let x1 := Function.update m1.vm.x_regs K.RV_R_A0 (to_uint32 ret.error)
  let x2 := Function.update x1 K.RV_R_A1 (to_uint32 ret.value)
  { m1 with vm := { m1.vm with x_regs := x2, error := K.ERR_NONE } }

/-! ## Functions of other translation units -/

/-- A call made by the code of `main.c` to a function defined elsewhere (or,
for `handle_sbi_ecall`, by the main loop to the SBI dispatcher), with the
scalar arguments that `main.c` computes. -/
inductive Call where
  | loadword_reu (addr : Nat)
  | ram_read (addr width : Nat)
  | ram_write (addr width value : Nat)
  | plic_read (addr width : Nat)
  | plic_write (addr width value : Nat)
  | plic_update_interrupts
  | u8250_read (addr width : Nat)
  | u8250_write (addr width value : Nat)
  | u8250_update_interrupts
  | u8250_check_ready
  | virtio_net_read (addr width : Nat)
  | virtio_net_write (addr width value : Nat)
  | virtio_net_refresh_queue
  | virtio_blk_read (addr width : Nat)
  | virtio_blk_write (addr width value : Nat)
  | vm_set_exception (cause val : Nat)
  | vm_step
  | vm_trap
  | vm_error_report
  | handle_sbi_ecall
  | save_all
  | save_to_reu
  | reset_vect
  | fopen
  | fwrite
  | fclose
  deriving DecidableEq, Repr

/-- The functions that `main.c` calls and that live in other translation
units, as transformers of the machine; a read also takes the current contents
of `*value` and returns the new contents. The last three fields are what the
host answers after the loop: whether `fopen` returned a file, how many bytes
`fwrite` wrote, and whether the call through the C64 reset vector comes
back. -/
structure Ext (D : Type) where
  loadword_reu : Machine D → Nat → Nat
  ram_read : Machine D → Nat → Nat → Nat → Machine D × Nat
  ram_write : Machine D → Nat → Nat → Nat → Machine D
  plic_read : Machine D → Nat → Nat → Nat → Machine D × Nat
  plic_write : Machine D → Nat → Nat → Nat → Machine D
  plic_update_interrupts : Machine D → Machine D
  u8250_read : Machine D → Nat → Nat → Nat → Machine D × Nat
  u8250_write : Machine D → Nat → Nat → Nat → Machine D
  u8250_update_interrupts : Machine D → Machine D
  u8250_check_ready : Machine D → Machine D
  virtio_net_read : Machine D → Nat → Nat → Nat → Machine D × Nat
  virtio_net_write : Machine D → Nat → Nat → Nat → Machine D
  virtio_net_refresh_queue : Machine D → Machine D
  virtio_blk_read : Machine D → Nat → Nat → Nat → Machine D × Nat
  virtio_blk_write : Machine D → Nat → Nat → Nat → Machine D
  vm_set_exception : Machine D → Nat → Nat → Machine D
  vm_step : Machine D → Machine D
  vm_trap : Machine D → Machine D
  vm_error_report : Machine D → Machine D
  save_all : Machine D → Machine D
  save_to_reu : Machine D → Machine D
  fopen_ok : Bool
  fwrite_count : Nat
  reset_vect_returns : Bool

/-- A machine together with the calls made so far. -/
structure Sys (D : Type) where
  m : Machine D
  log : List Call

/-- Call a function that returns nothing. -/
def Sys.call {D : Type} (s : Sys D) (c : Call) (f : Machine D → Machine D) : Sys D :=
  ⟨f s.m, s.log ++ [c]⟩

/-- Call a function that also delivers a value through a pointer. -/
def Sys.callv {D : Type} (s : Sys D) (c : Call) (f : Machine D → Machine D × Nat) :
    Sys D × Nat :=
  (⟨(f s.m).1, s.log ++ [c]⟩, (f s.m).2)

/-- The statement `vm_set_exception(vm, cause, vm->exc_val)`. -/
def raise_exception {D : Type} (E : Ext D) (s : Sys D) (cause : Nat) : Sys D :=
  s.call (Call.vm_set_exception cause s.m.vm.exc_val)
    (fun m => E.vm_set_exception m cause m.vm.exc_val)

/-! ## Address decoder -/

/-- The function `mem_fetch`; `value` is the contents of `*value` on entry and
the second component of the result its contents on return. -/
def mem_fetch {D : Type} (K : Consts) (E : Ext D) (s : Sys D) (addr value : Nat) :
    Sys D × Nat :=
  if addr ≥ K.RAM_SIZE then
    (raise_exception E s K.RV_EXC_FETCH_FAULT, value)
  else if K.C64 then
    (⟨s.m, s.log ++ [Call.loadword_reu (addr &&& 0xfffffffc)]⟩,
     E.loadword_reu s.m (addr &&& 0xfffffffc))
  else
    (s, s.m.emu.ram (addr >>> 2))

/-- The function `emu_update_uart_interrupts`. -/
def emu_update_uart_interrupts {D : Type} (K : Consts) (E : Ext D) (s : Sys D) : Sys D :=
  let s1 := s.call Call.u8250_update_interrupts E.u8250_update_interrupts
  let active :=
    if s1.m.emu.uart.pending_ints ≠ 0 then
      (s1.m.emu.plic.active ||| K.IRQ_UART_BIT) % 4294967296
    else s1.m.emu.plic.active &&& not32 K.IRQ_UART_BIT
  let s2 : Sys D :=
    { s1 with m := { s1.m with emu := { s1.m.emu with
        plic := { s1.m.emu.plic with active := active } } } }
  s2.call Call.plic_update_interrupts E.plic_update_interrupts

/-- The function `emu_update_vnet_interrupts`. -/
def emu_update_vnet_interrupts {D : Type} (K : Consts) (E : Ext D) (s : Sys D) : Sys D :=
  let active :=
    if s.m.emu.vnet_InterruptStatus ≠ 0 then
      (s.m.emu.plic.active ||| K.IRQ_VNET_BIT) % 4294967296
    else s.m.emu.plic.active &&& not32 K.IRQ_VNET_BIT
  let s1 : Sys D :=
    { s with m := { s.m with emu := { s.m.emu with
        plic := { s.m.emu.plic with active := active } } } }
  s1.call Call.plic_update_interrupts E.plic_update_interrupts

/-- The function `emu_update_vblk_interrupts`. -/
def emu_update_vblk_interrupts {D : Type} (K : Consts) (E : Ext D) (s : Sys D) : Sys D :=
  let active :=
    if s.m.emu.vblk_InterruptStatus ≠ 0 then
      (s.m.emu.plic.active ||| K.IRQ_VBLK_BIT) % 4294967296
    else s.m.emu.plic.active &&& not32 K.IRQ_VBLK_BIT
  let s1 : Sys D :=
    { s with m := { s.m with emu := { s.m.emu with
        plic := { s.m.emu.plic with active := active } } } }
  s1.call Call.plic_update_interrupts E.plic_update_interrupts

/-- The function `mem_load`. The `case` labels 0x41 and 0x42 exist only when
the corresponding device is compiled in. -/
def mem_load {D : Type} (K : Consts) (E : Ext D) (s : Sys D) (addr width value : Nat) :
    Sys D × Nat :=
  if addr < K.RAM_SIZE then
    s.callv (Call.ram_read addr width) (fun m => E.ram_read m addr width value)
  else if addr >>> 28 = 0xF then
    let region := (addr >>> 20) &&& MASK 8
    if region = 0x0 ∨ region = 0x2 then
      let r := s.callv (Call.plic_read (addr &&& 0x3FFFFFF) width)
        (fun m => E.plic_read m (addr &&& 0x3FFFFFF) width value)
      (r.1.call Call.plic_update_interrupts E.plic_update_interrupts, r.2)
    else if region = 0x40 then
      let r := s.callv (Call.u8250_read (addr &&& 0xFFFFF) width)
        (fun m => E.u8250_read m (addr &&& 0xFFFFF) width value)
      (emu_update_uart_interrupts K E r.1, r.2)
    else if K.HAS_VIRTIONET = true ∧ region = 0x41 then
      let r := s.callv (Call.virtio_net_read (addr &&& 0xFFFFF) width)
        (fun m => E.virtio_net_read m (addr &&& 0xFFFFF) width value)
      (emu_update_vnet_interrupts K E r.1, r.2)
    else if K.HAS_VIRTIOBLK = true ∧ region = 0x42 then
      let r := s.callv (Call.virtio_blk_read (addr &&& 0xFFFFF) width)
        (fun m => E.virtio_blk_read m (addr &&& 0xFFFFF) width value)
      (emu_update_vblk_interrupts K E r.1, r.2)
    else (raise_exception E s K.RV_EXC_LOAD_FAULT, value)
  else (raise_exception E s K.RV_EXC_LOAD_FAULT, value)

/-- The function `mem_store`. -/
def mem_store {D : Type} (K : Consts) (E : Ext D) (s : Sys D) (addr width value : Nat) :
    Sys D :=
  if addr < K.RAM_SIZE then
    s.call (Call.ram_write addr width value) (fun m => E.ram_write m addr width value)
  else if addr >>> 28 = 0xF then
    let region := (addr >>> 20) &&& MASK 8
    if region = 0x0 ∨ region = 0x2 then
      (s.call (Call.plic_write (addr &&& 0x3FFFFFF) width value)
        (fun m => E.plic_write m (addr &&& 0x3FFFFFF) width value)).call
        Call.plic_update_interrupts E.plic_update_interrupts
    else if region = 0x40 then
      emu_update_uart_interrupts K E
        (s.call (Call.u8250_write (addr &&& 0xFFFFF) width value)
          (fun m => E.u8250_write m (addr &&& 0xFFFFF) width value))
    else if K.HAS_VIRTIONET = true ∧ region = 0x41 then
      emu_update_vnet_interrupts K E
        (s.call (Call.virtio_net_write (addr &&& 0xFFFFF) width value)
          (fun m => E.virtio_net_write m (addr &&& 0xFFFFF) width value))
    else if K.HAS_VIRTIOBLK = true ∧ region = 0x42 then
      emu_update_vblk_interrupts K E
        (s.call (Call.virtio_blk_write (addr &&& 0xFFFFF) width value)
          (fun m => E.virtio_blk_write m (addr &&& 0xFFFFF) width value))
    else raise_exception E s K.RV_EXC_STORE_FAULT
  else raise_exception E s K.RV_EXC_STORE_FAULT

/-! ## Main loop -/

/-- The recomputation of timer-pending in the poll block of `semu_start`: the
`if`/`else` on `vm.insn_count_hi`, `vm.insn_count`, `emu.timer_hi` and
`emu.timer_lo` that sets or clears `RV_INT_STI_BIT` in `vm.sip`. -/
def update_timer_pending {D : Type} (K : Consts) (m : Machine D) : Machine D :=
  if m.vm.insn_count_hi > m.emu.timer_hi ∨
      (m.vm.insn_count_hi = m.emu.timer_hi ∧ m.vm.insn_count > m.emu.timer_lo) then
    { m with vm := { m.vm with sip := (m.vm.sip ||| K.RV_INT_STI_BIT) % 4294967296 } }
  else
    { m with vm := { m.vm with sip := m.vm.sip &&& not32 K.RV_INT_STI_BIT } }

/-- The poll block of `semu_start`, the body of
`if (peripheral_update_ctr-- == 0)`. -/
def peripheral_poll {D : Type} (K : Consts) (E : Ext D) (s : Sys D) : Sys D :=
  let s1 := s.call Call.u8250_check_ready E.u8250_check_ready
  let s2 := if s1.m.emu.uart.in_ready = true then emu_update_uart_interrupts K E s1 else s1
  let s3 :=
    if K.HAS_VIRTIONET = true then
      let t := s2.call Call.virtio_net_refresh_queue E.virtio_net_refresh_queue
      if t.m.emu.vnet_InterruptStatus ≠ 0 then emu_update_vnet_interrupts K E t else t
    else s2
  let s4 :=
    if K.HAS_VIRTIOBLK = true then
      if s3.m.emu.vblk_InterruptStatus ≠ 0 then emu_update_vblk_interrupts K E s3 else s3
    else s3
  { s4 with m := update_timer_pending K s4.m }

/-- The part of the loop body that follows `vm_step(&vm)`: the tests of
`vm.error` and `vm.exc_cause`. The second component is `some rc` when the
body executes `return rc`, and `none` when it executes `continue`. -/
def dispatch {D : Type} (K : Consts) (E : Ext D) (s : Sys D) : Sys D × Option Int :=
  if s.m.vm.error = 0 then (s, none)
  else if s.m.vm.error = K.ERR_EXCEPTION ∧ s.m.vm.exc_cause = K.RV_EXC_ECALL_S then
    (s.call Call.handle_sbi_ecall (handle_sbi_ecall K), none)
  else if s.m.vm.error = K.ERR_EXCEPTION then
    (s.call Call.vm_trap E.vm_trap, none)
  else
    (s.call Call.vm_error_report E.vm_error_report, some 2)

/-- The first half of the loop body, up to and including `vm_step(&vm)`:
the poll block when `peripheral_update_ctr` is 0 on entry, then the step. The
log starts empty, so that it holds the calls of this iteration. -/
def poll_and_step {D : Type} (K : Consts) (E : Ext D) (ctr : Nat) (m : Machine D) : Sys D :=
  let s0 : Sys D := ⟨m, []⟩
  let s1 := if ctr = 0 then peripheral_poll K E s0 else s0
  s1.call Call.vm_step E.vm_step

/-- What one iteration of the loop leaves behind: the new value of
`peripheral_update_ctr`, the machine, the calls the iteration made and the
return code if it returned from `semu_start`. -/
structure Iteration (D : Type) where
  ctr : Nat
  m : Machine D
  calls : List Call
  exit : Option Int

/-- The body of `while (!emu.stopped)`. `peripheral_update_ctr` is a
`uint8_t`: the test `peripheral_update_ctr-- == 0` uses its value before the
decrement, and the decrement wraps from 0 to 255. -/
def loop_body {D : Type} (K : Consts) (E : Ext D) (ctr : Nat) (m : Machine D) :
    Iteration D :=
  let d := dispatch K E (poll_and_step K E ctr m)
  ⟨(ctr + 255) % 256, d.1.m, d.1.log, d.2⟩

/-- How `semu_start` ends. -/
inductive Exit where
  /-- The statement `return code` was executed. -/
  | returned (code : Int)
  /-- An `assert` failed. -/
  | assert_failed
  /-- The call through `reset_vect` did not come back. -/
  | no_return
  /-- The loop was still running when the fuel of the model ran out. -/
  | out_of_fuel
  deriving DecidableEq, Repr

/-- The code of `semu_start` after the loop (printing is not modelled). In the
C64 build: `save_all`, `save_to_reu`, the call through `reset_vect`,
`return 0`. In the host build: `save_all`, `fopen`, `assert(reufile != NULL)`,
`fwrite`, `assert(wreu == 16777216)`, `fclose`, `return 0`. -/
def finish {D : Type} (K : Consts) (E : Ext D) (m : Machine D) : Sys D × Exit :=
  let s1 := (Sys.mk m []).call Call.save_all E.save_all
  if K.C64 = true then
    let s2 := s1.call Call.save_to_reu E.save_to_reu
    let s3 : Sys D := ⟨s2.m, s2.log ++ [Call.reset_vect]⟩
    if E.reset_vect_returns = true then (s3, Exit.returned 0) else (s3, Exit.no_return)
  else
    let s2 : Sys D := ⟨s1.m, s1.log ++ [Call.fopen]⟩
    if E.fopen_ok = false then (s2, Exit.assert_failed)
    else
      let s3 : Sys D := ⟨s2.m, s2.log ++ [Call.fwrite]⟩
      if E.fwrite_count ≠ 16777216 then (s3, Exit.assert_failed)
      else (⟨s3.m, s3.log ++ [Call.fclose]⟩, Exit.returned 0)

/-- A run of `semu_start` from the loop on: the final machine, the calls of
each iteration of the loop in order, the calls made after the loop, and how
the function ended. -/
structure Run (D : Type) where
  m : Machine D
  iters : List (List Call)
  tail : List Call
  exit : Exit

/-- The loop `while (!emu.stopped) { ... }` of `semu_start` and the code after
it, from the condition test on, with at most `fuel` tests of the condition. -/
def run_loop {D : Type} (K : Consts) (E : Ext D) : Nat → Nat → Machine D → Run D
  | 0, _, m => ⟨m, [], [], Exit.out_of_fuel⟩
  | fuel + 1, ctr, m =>
    if m.emu.stopped = true then
      let f := finish K E m
      ⟨f.1.m, [], f.1.log, f.2⟩
    else
      let b := loop_body K E ctr m
      match b.exit with
      | some rc => ⟨b.m, [b.calls], [], Exit.returned rc⟩
      | none =>
        let r := run_loop K E fuel b.ctr b.m
        { r with iters := b.calls :: r.iters }

/-- The loop entered as `semu_start` enters it, with
`peripheral_update_ctr = 0`. -/
def semu_loop {D : Type} (K : Consts) (E : Ext D) (fuel : Nat) (m : Machine D) : Run D :=
  run_loop K E fuel 0 m

/-! ## Sample data for instantiating the theorems -/

/-- Modelled from the spec: `vm_set_exception` is not among the sources; it
fills the error channel "exception(cause, tval)". -/
def set_exception {D : Type} (K : Consts) (m : Machine D) (cause val : Nat) : Machine D :=
  { m with vm := { m.vm with error := K.ERR_EXCEPTION, exc_cause := cause, exc_val := val } }

/-- A sample environment: `vm_set_exception` fills the error channel and every
other function leaves the machine as it is; reads deliver 0; the host opens
the dump file and writes all of it. -/
def sampleExt (K : Consts) : Ext Unit where
  loadword_reu := fun _ _ => 0
  ram_read := fun m _ _ _ => (m, 0)
  ram_write := fun m _ _ _ => m
  plic_read := fun m _ _ _ => (m, 0)
  plic_write := fun m _ _ _ => m
  plic_update_interrupts := fun m => m
  u8250_read := fun m _ _ _ => (m, 0)
  u8250_write := fun m _ _ _ => m
  u8250_update_interrupts := fun m => m
  u8250_check_ready := fun m => m
  virtio_net_read := fun m _ _ _ => (m, 0)
  virtio_net_write := fun m _ _ _ => m
  virtio_net_refresh_queue := fun m => m
  virtio_blk_read := fun m _ _ _ => (m, 0)
  virtio_blk_write := fun m _ _ _ => m
  vm_set_exception := set_exception K
  vm_step := fun m => m
  vm_trap := fun m => m
  vm_error_report := fun m => m
  save_all := fun m => m
  save_to_reu := fun m => m
  fopen_ok := true
  fwrite_count := 16777216
  reset_vect_returns := false

/-- A machine with every register and field zero, running. -/
def zeroMachine : Machine Unit where
  vm :=
    { x_regs := fun _ => 0, pc := 0, insn_count := 0, insn_count_hi := 0, error := 0,
      exc_cause := 0, exc_val := 0, s_mode := true, sstatus := 0, sie := 0, sip := 0,
      stvec := 0, sscratch := 0, sepc := 0, scause := 0, stval := 0, satp := 0,
      scounteren := 0, page_table_addr := 0 }
  emu :=
    { stopped := false, timer_lo := 0, timer_hi := 0, ram := fun _ => 0,
      plic := ⟨0, 0, 0, 0⟩, uart := ⟨false, 0, 0, 0, 1⟩,
      vnet_InterruptStatus := 0, vblk_InterruptStatus := 0, rest := () }

/-- The machine of an SBI call as `vm_step` leaves it: the error channel holds
"environment call from S-mode", `pc` is `pc`, and `a7`, `a6`, `a0`, `a1` hold
the given values (register numbers of `stdConsts`). -/
def ecallMachine (pc a7 a6 a0 a1 : Nat) : Machine Unit :=
  { zeroMachine with vm := { zeroMachine.vm with
      pc := pc, error := 1, exc_cause := 9,
      x_regs := fun r =>
        if r = 17 then a7 else if r = 16 then a6 else if r = 10 then a0
        else if r = 11 then a1 else 0 } }

/-- The machine `zeroMachine` with the given instruction counter, timer and
`sip`. -/
def timerMachine (insn_count insn_count_hi timer_lo timer_hi sip : Nat) : Machine Unit :=
  { vm := { zeroMachine.vm with
      insn_count := insn_count, insn_count_hi := insn_count_hi, sip := sip },
    emu := { zeroMachine.emu with timer_lo := timer_lo, timer_hi := timer_hi } }

/-- The value of `peripheral_update_ctr` and the machine at the condition test
that precedes iteration `k` (counting from 0) of the loop entered with counter
`ctr` and machine `m`: `k` times, the condition `!emu.stopped` held and the
body ended in `continue`. It is `none` when the loop has ended before. -/
def loop_entry {D : Type} (K : Consts) (E : Ext D) :
    Nat → Nat → Machine D → Option (Nat × Machine D)
  | 0, ctr, m => some (ctr, m)
  | k + 1, ctr, m =>
    if m.emu.stopped = true then none
    else
      match (loop_body K E ctr m).exit with
      | some _ => none
      | none => loop_entry K E k (loop_body K E ctr m).ctr (loop_body K E ctr m).m

/-! ## Machine integers: facts -/

theorem to_uint32_to_int32 (i : Int) : to_uint32 (to_int32 i) = to_uint32 i := by
  unfold to_uint32 to_int32
  split
  · rw [Int.emod_emod_of_dvd _ (dvd_refl _)]
  · rw [Int.sub_emod, Int.emod_self, sub_zero, Int.emod_emod_of_dvd _ (dvd_refl _),
      Int.emod_emod_of_dvd _ (dvd_refl _)]

theorem to_uint32_zero : to_uint32 0 = 0 := by decide

theorem to_uint32_neg_two : to_uint32 (-2) = 4294967294 := by decide

/-! ## SBI dispatcher: facts -/

theorem sbi_dispatch_vm {D : Type} (K : Consts) (m : Machine D) :
    (sbi_dispatch K m).1.vm = m.vm := by
  unfold sbi_dispatch handle_sbi_ecall_BASE handle_sbi_ecall_TIMER handle_sbi_ecall_RST
  repeat' split
  all_goals rfl

theorem handle_sbi_ecall_emu {D : Type} (K : Consts) (m : Machine D) :
    (handle_sbi_ecall K m).emu = (sbi_dispatch K m).1.emu := rfl

theorem handle_sbi_ecall_a0 {D : Type} (K : Consts) (m : Machine D)
    (hreg : K.RV_R_A0 ≠ K.RV_R_A1) :
    (handle_sbi_ecall K m).vm.x_regs K.RV_R_A0 = to_uint32 (sbi_dispatch K m).2.error := by
  simp [handle_sbi_ecall, Function.update, hreg]

theorem handle_sbi_ecall_a1 {D : Type} (K : Consts) (m : Machine D) :
    (handle_sbi_ecall K m).vm.x_regs K.RV_R_A1 = to_uint32 (sbi_dispatch K m).2.value := by
  simp [handle_sbi_ecall, Function.update]

theorem sbi_dispatch_timer {D : Type} (K : Consts) (m : Machine D)
    (hBT : to_uint32 K.SBI_EID_BASE ≠ to_uint32 K.SBI_EID_TIMER)
    (h7 : m.vm.x_regs K.RV_R_A7 = to_uint32 K.SBI_EID_TIMER) :
    sbi_dispatch K m = handle_sbi_ecall_TIMER K m (sbi_fid K m) := by
  unfold sbi_dispatch
  rw [if_neg (by rw [h7]; exact fun h => hBT h.symm), if_pos h7]

theorem sbi_dispatch_rst {D : Type} (K : Consts) (m : Machine D)
    (hBR : to_uint32 K.SBI_EID_BASE ≠ to_uint32 K.SBI_EID_RST)
    (hTR : to_uint32 K.SBI_EID_TIMER ≠ to_uint32 K.SBI_EID_RST)
    (h7 : m.vm.x_regs K.RV_R_A7 = to_uint32 K.SBI_EID_RST) :
    sbi_dispatch K m = handle_sbi_ecall_RST K m (sbi_fid K m) := by
  unfold sbi_dispatch
  rw [if_neg (by rw [h7]; exact fun h => hBR h.symm),
    if_neg (by rw [h7]; exact fun h => hTR h.symm), if_pos h7]

/-! ## C1: Timer.set-timer -/

/-- C1. SBI Timer.set-timer: when `a7` holds `SBI_EID_TIMER` and `a6`, read as
the function id, is `SBI_TIMER__SET_TIMER`, `handle_sbi_ecall` leaves
`timer_lo` = the old `a0` and `timer_hi` = the old `a1`, sets `a0` to 0
(`SBI_SUCCESS`) and `a1` to 0, and sets the error channel to `ERR_NONE`. The
constants are any for which the `case` labels `SBI_EID_BASE` and
`SBI_EID_TIMER` differ, `a0` and `a1` are different registers and
`SBI_SUCCESS` is 0. -/
theorem sbi_set_timer {D : Type} (K : Consts) (m : Machine D)
    (hBT : to_uint32 K.SBI_EID_BASE ≠ to_uint32 K.SBI_EID_TIMER)
    (hreg : K.RV_R_A0 ≠ K.RV_R_A1)
    (hS : K.SBI_SUCCESS = 0)
    (h7 : m.vm.x_regs K.RV_R_A7 = to_uint32 K.SBI_EID_TIMER)
    (h6 : to_int32 (m.vm.x_regs K.RV_R_A6) = K.SBI_TIMER__SET_TIMER) :
    (handle_sbi_ecall K m).emu.timer_lo = m.vm.x_regs K.RV_R_A0 ∧
    (handle_sbi_ecall K m).emu.timer_hi = m.vm.x_regs K.RV_R_A1 ∧
    (handle_sbi_ecall K m).vm.x_regs K.RV_R_A0 = 0 ∧
    (handle_sbi_ecall K m).vm.x_regs K.RV_R_A1 = 0 ∧
    (handle_sbi_ecall K m).vm.error = K.ERR_NONE := by
  have hd : sbi_dispatch K m =
      ({ m with emu := { m.emu with timer_lo := m.vm.x_regs K.RV_R_A0,
                                    timer_hi := m.vm.x_regs K.RV_R_A1 } },
       sbi_ret K.SBI_SUCCESS 0) := by
    rw [sbi_dispatch_timer K m hBT h7]
    unfold handle_sbi_ecall_TIMER sbi_fid
    rw [if_pos h6]
  refine ⟨?_, ?_, ?_, ?_, rfl⟩
  · rw [handle_sbi_ecall_emu, hd]
  · rw [handle_sbi_ecall_emu, hd]
  · rw [handle_sbi_ecall_a0 K m hreg, hd, hS]
    show to_uint32 (to_int32 0) = 0
    decide
  · rw [handle_sbi_ecall_a1 K m, hd]
    show to_uint32 (to_int32 0) = 0
    decide

/-- Scenario S4 of the spec as an instance of `sbi_set_timer`: with
`a7 = 0x54494D45`, `a6 = 0`, `a0 = 100`, `a1 = 0` the call leaves
`timer_lo = 100`, `timer_hi = 0`, `a0 = 0`, `a1 = 0` and no error. -/
theorem sbi_set_timer_S4 :
    (ecallMachine 0x1000 0x54494D45 0 100 0).vm.x_regs stdConsts.RV_R_A7 =
      to_uint32 stdConsts.SBI_EID_TIMER ∧
    to_int32 ((ecallMachine 0x1000 0x54494D45 0 100 0).vm.x_regs stdConsts.RV_R_A6) =
      stdConsts.SBI_TIMER__SET_TIMER ∧
    (handle_sbi_ecall stdConsts (ecallMachine 0x1000 0x54494D45 0 100 0)).emu.timer_lo = 100 ∧
    (handle_sbi_ecall stdConsts (ecallMachine 0x1000 0x54494D45 0 100 0)).emu.timer_hi = 0 ∧
    (handle_sbi_ecall stdConsts (ecallMachine 0x1000 0x54494D45 0 100 0)).vm.x_regs 10 = 0 ∧
    (handle_sbi_ecall stdConsts (ecallMachine 0x1000 0x54494D45 0 100 0)).vm.x_regs 11 = 0 ∧
    (handle_sbi_ecall stdConsts (ecallMachine 0x1000 0x54494D45 0 100 0)).vm.error = 0 :=
  ⟨by decide, by decide,
    sbi_set_timer stdConsts (ecallMachine 0x1000 0x54494D45 0 100 0)
      (by decide) (by decide) rfl (by decide) (by decide)⟩

/-! ## C2: unsupported SBI calls -/

/-- C2. Unsupported SBI calls: when `a7` is none of the three extension ids,
or is one of them while `a6`, read as the function id, is not a function that
extension implements, `handle_sbi_ecall` sets `a0` to 0xFFFFFFFE
(`SBI_ERR_NOT_SUPPORTED` = -2 as a 32-bit register) and `a1` to 0 and leaves
`timer_lo`, `timer_hi` and `stopped` as they were. The constants are any for
which the three `case` labels differ, `a0` and `a1` are different registers
and `SBI_ERR_NOT_SUPPORTED` is -2. -/
theorem sbi_not_supported {D : Type} (K : Consts) (m : Machine D)
    (hBT : to_uint32 K.SBI_EID_BASE ≠ to_uint32 K.SBI_EID_TIMER)
    (hBR : to_uint32 K.SBI_EID_BASE ≠ to_uint32 K.SBI_EID_RST)
    (hTR : to_uint32 K.SBI_EID_TIMER ≠ to_uint32 K.SBI_EID_RST)
    (hreg : K.RV_R_A0 ≠ K.RV_R_A1)
    (hN : K.SBI_ERR_NOT_SUPPORTED = -2)
    (h : (m.vm.x_regs K.RV_R_A7 ≠ to_uint32 K.SBI_EID_BASE ∧
          m.vm.x_regs K.RV_R_A7 ≠ to_uint32 K.SBI_EID_TIMER ∧
          m.vm.x_regs K.RV_R_A7 ≠ to_uint32 K.SBI_EID_RST) ∨
         (m.vm.x_regs K.RV_R_A7 = to_uint32 K.SBI_EID_BASE ∧
          to_int32 (m.vm.x_regs K.RV_R_A6) ≠ K.SBI_BASE__GET_SBI_IMPL_ID ∧
          to_int32 (m.vm.x_regs K.RV_R_A6) ≠ K.SBI_BASE__GET_SBI_IMPL_VERSION ∧
          to_int32 (m.vm.x_regs K.RV_R_A6) ≠ K.SBI_BASE__GET_MVENDORID ∧
          to_int32 (m.vm.x_regs K.RV_R_A6) ≠ K.SBI_BASE__GET_MARCHID ∧
          to_int32 (m.vm.x_regs K.RV_R_A6) ≠ K.SBI_BASE__GET_MIMPID ∧
          to_int32 (m.vm.x_regs K.RV_R_A6) ≠ K.SBI_BASE__GET_SBI_SPEC_VERSION ∧
          to_int32 (m.vm.x_regs K.RV_R_A6) ≠ K.SBI_BASE__PROBE_EXTENSION) ∨
         (m.vm.x_regs K.RV_R_A7 = to_uint32 K.SBI_EID_TIMER ∧
          to_int32 (m.vm.x_regs K.RV_R_A6) ≠ K.SBI_TIMER__SET_TIMER) ∨
         (m.vm.x_regs K.RV_R_A7 = to_uint32 K.SBI_EID_RST ∧
          to_int32 (m.vm.x_regs K.RV_R_A6) ≠ K.SBI_RST__SYSTEM_RESET)) :
    (handle_sbi_ecall K m).vm.x_regs K.RV_R_A0 = 4294967294 ∧
    (handle_sbi_ecall K m).vm.x_regs K.RV_R_A1 = 0 ∧
    (handle_sbi_ecall K m).emu.timer_lo = m.emu.timer_lo ∧
    (handle_sbi_ecall K m).emu.timer_hi = m.emu.timer_hi ∧
    (handle_sbi_ecall K m).emu.stopped = m.emu.stopped := by
  have hd : sbi_dispatch K m = (m, sbi_ret K.SBI_ERR_NOT_SUPPORTED 0) := by
    rcases h with ⟨hB, hT, hR⟩ | ⟨hB, h1, h2, h3, h4, h5, h6, h7⟩ | ⟨hT, h1⟩ | ⟨hR, h1⟩
    · unfold sbi_dispatch
      rw [if_neg hB, if_neg hT, if_neg hR]
    · unfold sbi_dispatch
      rw [if_pos hB]
      unfold handle_sbi_ecall_BASE sbi_fid
      rw [if_neg h1, if_neg h2, if_neg h3, if_neg h4, if_neg h5, if_neg h6, if_neg h7]
    · rw [sbi_dispatch_timer K m hBT hT]
      unfold handle_sbi_ecall_TIMER sbi_fid
      rw [if_neg h1]
    · rw [sbi_dispatch_rst K m hBR hTR hR]
      unfold handle_sbi_ecall_RST sbi_fid
      rw [if_neg h1]
  refine ⟨?_, ?_, ?_, ?_, ?_⟩
  · rw [handle_sbi_ecall_a0 K m hreg, hd, hN]
    show to_uint32 (to_int32 (-2)) = 4294967294
    decide
  · rw [handle_sbi_ecall_a1 K m, hd]
    show to_uint32 (to_int32 0) = 0
    decide
  · rw [handle_sbi_ecall_emu, hd]
  · rw [handle_sbi_ecall_emu, hd]
  · rw [handle_sbi_ecall_emu, hd]

/-- An instance of `sbi_not_supported`: the Timer extension called with
function id 1, `a0 = 100`, `a1 = 7`, timer and stopped flag as in
`zeroMachine`. -/
theorem sbi_not_supported_timer_fid1 :
    ((ecallMachine 0x1000 0x54494D45 1 100 7).vm.x_regs stdConsts.RV_R_A7 =
        to_uint32 stdConsts.SBI_EID_TIMER ∧
      to_int32 ((ecallMachine 0x1000 0x54494D45 1 100 7).vm.x_regs stdConsts.RV_R_A6) ≠
        stdConsts.SBI_TIMER__SET_TIMER) ∧
    (handle_sbi_ecall stdConsts (ecallMachine 0x1000 0x54494D45 1 100 7)).vm.x_regs 10 =
      4294967294 ∧
    (handle_sbi_ecall stdConsts (ecallMachine 0x1000 0x54494D45 1 100 7)).vm.x_regs 11 = 0 ∧
    (handle_sbi_ecall stdConsts (ecallMachine 0x1000 0x54494D45 1 100 7)).emu.timer_lo = 0 ∧
    (handle_sbi_ecall stdConsts (ecallMachine 0x1000 0x54494D45 1 100 7)).emu.timer_hi = 0 ∧
    (handle_sbi_ecall stdConsts (ecallMachine 0x1000 0x54494D45 1 100 7)).emu.stopped = false :=
  ⟨⟨by decide, by decide⟩,
    sbi_not_supported stdConsts (ecallMachine 0x1000 0x54494D45 1 100 7)
      (by decide) (by decide) (by decide) (by decide) rfl
      (Or.inr (Or.inr (Or.inl ⟨by decide, by decide⟩)))⟩

/-! ## C10: what the SBI handler leaves alone -/

/-- C10. SBI handler register frame: for every machine (so for every `a7` and
`a6`), `handle_sbi_ecall` changes no general register other than `a0` and
`a1`; if neither of them is register 0 and register 0 held zero, it still
holds zero; the CSRs `sstatus`, `sie`, `sip`, `stvec`, `sepc`, `scause`,
`stval`, `satp` and the privilege mode `s_mode` are unchanged. -/
theorem sbi_frame {D : Type} (K : Consts) (m : Machine D) :
    (∀ r, r ≠ K.RV_R_A0 → r ≠ K.RV_R_A1 →
      (handle_sbi_ecall K m).vm.x_regs r = m.vm.x_regs r) ∧
    (K.RV_R_A0 ≠ 0 → K.RV_R_A1 ≠ 0 → m.vm.x_regs 0 = 0 →
      (handle_sbi_ecall K m).vm.x_regs 0 = 0) ∧
    (handle_sbi_ecall K m).vm.sstatus = m.vm.sstatus ∧
    (handle_sbi_ecall K m).vm.sie = m.vm.sie ∧
    (handle_sbi_ecall K m).vm.sip = m.vm.sip ∧
    (handle_sbi_ecall K m).vm.stvec = m.vm.stvec ∧
    (handle_sbi_ecall K m).vm.sepc = m.vm.sepc ∧
    (handle_sbi_ecall K m).vm.scause = m.vm.scause ∧
    (handle_sbi_ecall K m).vm.stval = m.vm.stval ∧
    (handle_sbi_ecall K m).vm.satp = m.vm.satp ∧
    (handle_sbi_ecall K m).vm.s_mode = m.vm.s_mode := by
  have hx : ∀ r, r ≠ K.RV_R_A0 → r ≠ K.RV_R_A1 →
      (handle_sbi_ecall K m).vm.x_regs r = m.vm.x_regs r := by
    intro r h0 h1
    simp [handle_sbi_ecall, Function.update, h0, h1, sbi_dispatch_vm]
  refine ⟨hx, ?_, ?_, ?_, ?_, ?_, ?_, ?_, ?_, ?_, ?_⟩
  · intro h0 h1 hz
    rw [hx 0 (Ne.symm h0) (Ne.symm h1), hz]
  all_goals simp [handle_sbi_ecall, sbi_dispatch_vm]

/-- An instance of `sbi_frame`: a system-reset call on a machine whose
register 0 is zero leaves register 0 zero and register `a7` as it was. -/
theorem sbi_frame_reset_call :
    (ecallMachine 0x1000 0x53525354 0 0 0).vm.x_regs 0 = 0 ∧
    (handle_sbi_ecall stdConsts (ecallMachine 0x1000 0x53525354 0 0 0)).vm.x_regs 0 = 0 ∧
    (handle_sbi_ecall stdConsts (ecallMachine 0x1000 0x53525354 0 0 0)).vm.x_regs 17 =
      0x53525354 :=
  ⟨rfl,
    (sbi_frame stdConsts (ecallMachine 0x1000 0x53525354 0 0 0)).2.1
      (by decide) (by decide) rfl,
    (sbi_frame stdConsts (ecallMachine 0x1000 0x53525354 0 0 0)).1 17
      (by decide) (by decide)⟩

/-! ## Main loop: facts about the call log -/

theorem emu_update_uart_interrupts_log {D : Type} (K : Consts) (E : Ext D) (s : Sys D) :
    (emu_update_uart_interrupts K E s).log =
      s.log ++ [Call.u8250_update_interrupts, Call.plic_update_interrupts] := by
  simp [emu_update_uart_interrupts, Sys.call]

theorem emu_update_vnet_interrupts_log {D : Type} (K : Consts) (E : Ext D) (s : Sys D) :
    (emu_update_vnet_interrupts K E s).log = s.log ++ [Call.plic_update_interrupts] := by
  simp [emu_update_vnet_interrupts, Sys.call]

theorem emu_update_vblk_interrupts_log {D : Type} (K : Consts) (E : Ext D) (s : Sys D) :
    (emu_update_vblk_interrupts K E s).log = s.log ++ [Call.plic_update_interrupts] := by
  simp [emu_update_vblk_interrupts, Sys.call]

/-- The calls a poll block can make after `u8250_check_ready`. -/
theorem peripheral_poll_log {D : Type} (K : Consts) (E : Ext D) (s : Sys D) :
    ∃ l, (peripheral_poll K E s).log = s.log ++ Call.u8250_check_ready :: l ∧
      ∀ c ∈ l, c = Call.u8250_update_interrupts ∨ c = Call.plic_update_interrupts ∨
        c = Call.virtio_net_refresh_queue := by
  unfold peripheral_poll
  simp only []
  split_ifs <;>
    simp [emu_update_uart_interrupts_log, emu_update_vnet_interrupts_log,
      emu_update_vblk_interrupts_log, Sys.call]


theorem poll_and_step_log {D : Type} (K : Consts) (E : Ext D) (ctr : Nat) (m : Machine D) :
    (ctr ≠ 0 → (poll_and_step K E ctr m).log = [Call.vm_step]) ∧
    (ctr = 0 → ∃ l, (poll_and_step K E ctr m).log =
        Call.u8250_check_ready :: (l ++ [Call.vm_step]) ∧
      ∀ c ∈ l, c = Call.u8250_update_interrupts ∨ c = Call.plic_update_interrupts ∨
        c = Call.virtio_net_refresh_queue) := by
  constructor
  · intro h
    simp [poll_and_step, h, Sys.call]
  · intro h
    obtain ⟨l, hl, hc⟩ := peripheral_poll_log K E ⟨m, []⟩
    refine ⟨l, ?_, hc⟩
    simp [poll_and_step, h, Sys.call, hl]

theorem dispatch_log {D : Type} (K : Consts) (E : Ext D) (s : Sys D) :
    (dispatch K E s).1.log = s.log ∨
    (dispatch K E s).1.log = s.log ++ [Call.handle_sbi_ecall] ∨
    (dispatch K E s).1.log = s.log ++ [Call.vm_trap] ∨
    (dispatch K E s).1.log = s.log ++ [Call.vm_error_report] := by
  unfold dispatch
  split_ifs <;> simp [Sys.call]

/-- The calls of one iteration: the poll block is there exactly when the
counter is 0 on entry, it comes before the step, and there is one step. -/
theorem loop_body_calls {D : Type} (K : Consts) (E : Ext D) (ctr : Nat) (m : Machine D) :
    (Call.u8250_check_ready ∈ (loop_body K E ctr m).calls ↔ ctr = 0) ∧
    (loop_body K E ctr m).calls.count Call.vm_step = 1 ∧
    (ctr = 0 → (loop_body K E ctr m).calls.head? = some Call.u8250_check_ready) ∧
    (ctr ≠ 0 → (loop_body K E ctr m).calls.head? = some Call.vm_step) ∧
    Call.save_all ∉ (loop_body K E ctr m).calls ∧
    (loop_body K E ctr m).calls.count Call.u8250_check_ready = (if ctr = 0 then 1 else 0) := by
  have hd := dispatch_log K E (poll_and_step K E ctr m)
  have hp := poll_and_step_log K E ctr m
  show (Call.u8250_check_ready ∈ (dispatch K E (poll_and_step K E ctr m)).1.log ↔ ctr = 0) ∧
    (dispatch K E (poll_and_step K E ctr m)).1.log.count Call.vm_step = 1 ∧
    (ctr = 0 → (dispatch K E (poll_and_step K E ctr m)).1.log.head? =
      some Call.u8250_check_ready) ∧
    (ctr ≠ 0 → (dispatch K E (poll_and_step K E ctr m)).1.log.head? = some Call.vm_step) ∧
    Call.save_all ∉ (dispatch K E (poll_and_step K E ctr m)).1.log ∧
    (dispatch K E (poll_and_step K E ctr m)).1.log.count Call.u8250_check_ready =
      (if ctr = 0 then 1 else 0)
  by_cases h : ctr = 0
  · obtain ⟨l, hl, hc⟩ := hp.2 h
    have hcount : l.count Call.vm_step = 0 := by
      rw [List.count_eq_zero]
      intro hm
      rcases hc _ hm with h1 | h1 | h1 <;> cases h1
    have hcheck : l.count Call.u8250_check_ready = 0 := by
      rw [List.count_eq_zero]
      intro hm
      rcases hc _ hm with h1 | h1 | h1 <;> cases h1
    have hsave : Call.save_all ∉ l := by
      intro hm
      rcases hc _ hm with h1 | h1 | h1 <;> cases h1
    rcases hd with hd | hd | hd | hd <;> rw [hd, hl] <;>
      simp [h, hcount, hcheck, hsave, List.count_cons, List.count_append]
  · have hl := hp.1 h
    rcases hd with hd | hd | hd | hd <;> rw [hd, hl] <;> simp [h]

theorem loop_body_ctr {D : Type} (K : Consts) (E : Ext D) (ctr : Nat) (m : Machine D) :
    (loop_body K E ctr m).ctr = (ctr + 255) % 256 := rfl

theorem run_loop_succ {D : Type} (K : Consts) (E : Ext D) (fuel ctr : Nat) (m : Machine D) :
    run_loop K E (fuel + 1) ctr m =
      if m.emu.stopped = true then
        ⟨(finish K E m).1.m, [], (finish K E m).1.log, (finish K E m).2⟩
      else
        match (loop_body K E ctr m).exit with
        | some rc => ⟨(loop_body K E ctr m).m, [(loop_body K E ctr m).calls], [],
            Exit.returned rc⟩
        | none =>
          { run_loop K E fuel (loop_body K E ctr m).ctr (loop_body K E ctr m).m with
            iters := (loop_body K E ctr m).calls ::
              (run_loop K E fuel (loop_body K E ctr m).ctr (loop_body K E ctr m).m).iters } :=
  rfl

/-- Iteration `k` of a run that starts with counter `ctr`: it polls exactly
when `ctr + 255 * k` is a multiple of 256. -/
theorem run_loop_iters {D : Type} (K : Consts) (E : Ext D) :
    ∀ (fuel ctr : Nat) (m : Machine D) (k : Nat) (calls : List Call), ctr < 256 →
      (run_loop K E fuel ctr m).iters[k]? = some calls →
      (Call.u8250_check_ready ∈ calls ↔ (ctr + 255 * k) % 256 = 0) ∧
      calls.count Call.vm_step = 1 ∧
      ((ctr + 255 * k) % 256 = 0 → calls.head? = some Call.u8250_check_ready) ∧
      ((ctr + 255 * k) % 256 ≠ 0 → calls.head? = some Call.vm_step) ∧
      calls.count Call.u8250_check_ready = (if (ctr + 255 * k) % 256 = 0 then 1 else 0) := by
  intro fuel
  induction fuel with
  | zero =>
    intro ctr m k calls _ h
    simp [run_loop] at h
  | succ fuel ih =>
    intro ctr m k calls hc h
    rw [run_loop_succ] at h
    have hb := loop_body_calls K E ctr m
    have h0 : (ctr + 255 * 0) % 256 = 0 ↔ ctr = 0 := by omega
    by_cases hs : m.emu.stopped = true
    · rw [if_pos hs] at h
      simp at h
    · rw [if_neg hs] at h
      cases hx : (loop_body K E ctr m).exit with
      | some rc =>
        rw [hx] at h
        cases k with
        | zero =>
          simp at h
          subst h
          refine ⟨hb.1.trans h0.symm, hb.2.1, fun h => hb.2.2.1 (h0.1 h),
            fun h => hb.2.2.2.1 (fun e => h (h0.2 e)), ?_⟩
          rw [hb.2.2.2.2.2]
          by_cases hz : ctr = 0
          · rw [if_pos hz, if_pos (h0.2 hz)]
          · rw [if_neg hz, if_neg (fun e => hz (h0.1 e))]
        | succ k => simp at h
      | none =>
        rw [hx] at h
        cases k with
        | zero =>
          simp at h
          subst h
          refine ⟨hb.1.trans h0.symm, hb.2.1, fun h => hb.2.2.1 (h0.1 h),
            fun h => hb.2.2.2.1 (fun e => h (h0.2 e)), ?_⟩
          rw [hb.2.2.2.2.2]
          by_cases hz : ctr = 0
          · rw [if_pos hz, if_pos (h0.2 hz)]
          · rw [if_neg hz, if_neg (fun e => hz (h0.1 e))]
        | succ k =>
          simp only [List.getElem?_cons_succ] at h
          have hc' : (loop_body K E ctr m).ctr < 256 := by
            rw [loop_body_ctr]; omega
          have := ih _ _ k calls hc' h
          have e : ((loop_body K E ctr m).ctr + 255 * k) % 256 =
              (ctr + 255 * (k + 1)) % 256 := by
            rw [loop_body_ctr]; omega
          rwa [e] at this

/-- Counting a call over the first `n` of a list of call lists, when the
number of its occurrences in list `k` is `f k` and `g` sums `f`. -/
theorem flatten_take_count (x : Call) (f g : Nat → Nat) (L : List (List Call))
    (hL : ∀ k c, L[k]? = some c → c.count x = f k)
    (g0 : g 0 = 0) (gs : ∀ n, g (n + 1) = g n + f n) :
    ∀ n, n ≤ L.length → ((L.take n).flatten).count x = g n := by
  intro n
  induction n with
  | zero =>
    intro _
    simp [g0]
  | succ n ih =>
    intro hn
    have hlt : n < L.length := by omega
    have hget : L[n]? = some L[n] := List.getElem?_eq_getElem hlt
    rw [List.take_succ, hget, List.flatten_append, List.count_append, ih (by omega), gs,
      ← hL n L[n] hget]
    simp

/-! ## C8: poll interval -/

theorem loop_entry_succ {D : Type} (K : Consts) (E : Ext D) (k ctr : Nat) (m : Machine D) :
    loop_entry K E (k + 1) ctr m =
      if m.emu.stopped = true then none
      else
        match (loop_body K E ctr m).exit with
        | some _ => none
        | none => loop_entry K E k (loop_body K E ctr m).ctr (loop_body K E ctr m).m :=
  rfl

/-- Iteration `k` of a run is the loop body run from the entry state of
iteration `k`. -/
theorem run_loop_entry {D : Type} (K : Consts) (E : Ext D) :
    ∀ (fuel ctr : Nat) (m : Machine D) (k : Nat) (calls : List Call), ctr < 256 →
      (run_loop K E fuel ctr m).iters[k]? = some calls →
      ∃ c mk, loop_entry K E k ctr m = some (c, mk) ∧ mk.emu.stopped = false ∧
        c = (ctr + 255 * k) % 256 ∧ calls = (loop_body K E c mk).calls := by
  intro fuel
  induction fuel with
  | zero =>
    intro ctr m k calls _ h
    simp [run_loop] at h
  | succ fuel ih =>
    intro ctr m k calls hc h
    rw [run_loop_succ] at h
    by_cases hs : m.emu.stopped = true
    · rw [if_pos hs] at h
      simp at h
    · rw [if_neg hs] at h
      have hs' : m.emu.stopped = false := by simpa using hs
      cases hx : (loop_body K E ctr m).exit with
      | some rc =>
        rw [hx] at h
        cases k with
        | zero =>
          simp at h
          exact ⟨ctr, m, rfl, hs', by omega, h.symm⟩
        | succ k => simp at h
      | none =>
        rw [hx] at h
        cases k with
        | zero =>
          simp at h
          exact ⟨ctr, m, rfl, hs', by omega, h.symm⟩
        | succ k =>
          simp only [List.getElem?_cons_succ] at h
          have hc' : (loop_body K E ctr m).ctr < 256 := by
            rw [loop_body_ctr]; omega
          obtain ⟨c, mk, h1, h2, h3, h4⟩ := ih _ _ k calls hc' h
          refine ⟨c, mk, ?_, h2, ?_, h4⟩
          · rw [loop_entry_succ, if_neg hs, hx]
            exact h1
          · rw [h3, loop_body_ctr]; omega

/-- A run seen from the entry of iteration `k`: what is left of it is the run
of the loop from that counter and machine. -/
theorem run_loop_from_entry {D : Type} (K : Consts) (E : Ext D) :
    ∀ (k fuel ctr : Nat) (m : Machine D) (c : Nat) (mk : Machine D),
      loop_entry K E k ctr m = some (c, mk) → k ≤ fuel →
      (run_loop K E fuel ctr m).iters.drop k = (run_loop K E (fuel - k) c mk).iters ∧
      (run_loop K E fuel ctr m).m = (run_loop K E (fuel - k) c mk).m ∧
      (run_loop K E fuel ctr m).tail = (run_loop K E (fuel - k) c mk).tail ∧
      (run_loop K E fuel ctr m).exit = (run_loop K E (fuel - k) c mk).exit := by
  intro k
  induction k with
  | zero =>
    intro fuel ctr m c mk h _
    simp only [loop_entry, Option.some.injEq, Prod.mk.injEq] at h
    obtain ⟨h1, h2⟩ := h
    subst h1
    subst h2
    exact ⟨rfl, rfl, rfl, rfl⟩
  | succ k ih =>
    intro fuel ctr m c mk h hk
    obtain ⟨f, rfl⟩ : ∃ f, fuel = f + 1 := ⟨fuel - 1, by omega⟩
    rw [loop_entry_succ] at h
    by_cases hs : m.emu.stopped = true
    · rw [if_pos hs] at h
      cases h
    · rw [if_neg hs] at h
      cases hx : (loop_body K E ctr m).exit with
      | some rc =>
        rw [hx] at h
        cases h
      | none =>
        rw [hx] at h
        have := ih f _ _ c mk h (by omega)
        have e : f + 1 - (k + 1) = f - k := by omega
        rw [run_loop_succ, if_neg hs, hx, e]
        exact ⟨by simpa using this.1, this.2.1, this.2.2.1, this.2.2.2⟩

theorem peripheral_poll_refresh {D : Type} (K : Consts) (E : Ext D) (m : Machine D) :
    Call.virtio_net_refresh_queue ∈ (peripheral_poll K E ⟨m, []⟩).log ↔
      K.HAS_VIRTIONET = true := by
  unfold peripheral_poll
  simp only []
  split_ifs <;>
    simp_all [emu_update_uart_interrupts_log, emu_update_vnet_interrupts_log,
      emu_update_vblk_interrupts_log, Sys.call]

theorem loop_body_refresh {D : Type} (K : Consts) (E : Ext D) (ctr : Nat) (m : Machine D) :
    Call.virtio_net_refresh_queue ∈ (loop_body K E ctr m).calls ↔
      ctr = 0 ∧ K.HAS_VIRTIONET = true := by
  have hd := dispatch_log K E (poll_and_step K E ctr m)
  have hp : (poll_and_step K E ctr m).log =
      (if ctr = 0 then (peripheral_poll K E ⟨m, []⟩).log else []) ++ [Call.vm_step] := by
    unfold poll_and_step
    by_cases h : ctr = 0 <;> simp [h, Sys.call]
  have hr := peripheral_poll_refresh K E m
  show Call.virtio_net_refresh_queue ∈ (dispatch K E (poll_and_step K E ctr m)).1.log ↔ _
  by_cases h : ctr = 0
  · rw [if_pos h] at hp
    rcases hd with hd | hd | hd | hd <;> rw [hd, hp] <;> simp [h, hr]
  · rw [if_neg h] at hp
    rcases hd with hd | hd | hd | hd <;> rw [hd, hp] <;> simp [h]

/-- C8. Poll interval: in the main loop entered with
`peripheral_update_ctr = 0`, whatever the machine, the environment and the
paths taken, the calls of loop iteration `k` (counting from 0) contain the
poll block, marked by its call of `u8250_check_ready`, if and only if
`k mod 256 = 0`; every iteration makes exactly one call of `vm_step`; when the
poll block runs it comes first in the iteration, so before the step, and
otherwise the step is the first call. Hence the first `n` iterations hold `n`
steps and `(n + 255) / 256` polls: one poll before each run of 256 steps, the
first step following a poll. Iteration `k` is the loop body run from the
counter and machine that `loop_entry` gives for `k`, and the counter is 0
there if and only if `k mod 256 = 0`. When `k mod 256 = 0` the machine and the
calls handed to `vm_step` are those of the whole poll block `peripheral_poll`
(UART ready check, virtio refresh, recomputation of timer-pending), so the
step is applied to a machine that `update_timer_pending` has just left; when
`k mod 256 ≠ 0` the step is applied to the entry machine as it is, nothing of
the poll block having run, so `sip` is not recomputed. The virtio refresh is
called in iteration `k` if and only if `k mod 256 = 0` and virtio-net is
compiled in. What is left of the run at the entry of iteration `k` is the run
of the loop from that entry. -/
theorem poll_interval {D : Type} (K : Consts) (E : Ext D) (fuel : Nat) (m : Machine D) :
    (∀ (k : Nat) (calls : List Call), (semu_loop K E fuel m).iters[k]? = some calls →
      (Call.u8250_check_ready ∈ calls ↔ k % 256 = 0) ∧
      calls.count Call.vm_step = 1 ∧
      (k % 256 = 0 → calls.head? = some Call.u8250_check_ready) ∧
      (k % 256 ≠ 0 → calls.head? = some Call.vm_step)) ∧
    (∀ n, n ≤ (semu_loop K E fuel m).iters.length →
      (((semu_loop K E fuel m).iters.take n).flatten).count Call.vm_step = n ∧
      (((semu_loop K E fuel m).iters.take n).flatten).count Call.u8250_check_ready =
        (n + 255) / 256) ∧
    (∀ (k : Nat) (calls : List Call), (semu_loop K E fuel m).iters[k]? = some calls →
      ∃ ctr mk, loop_entry K E k 0 m = some (ctr, mk) ∧ mk.emu.stopped = false ∧
        (ctr = 0 ↔ k % 256 = 0) ∧
        calls = (dispatch K E (poll_and_step K E ctr mk)).1.log ∧
        (k % 256 = 0 → poll_and_step K E ctr mk =
          (peripheral_poll K E ⟨mk, []⟩).call Call.vm_step E.vm_step) ∧
        (k % 256 = 0 → ∃ m0 : Machine D,
          (poll_and_step K E ctr mk).m = E.vm_step (update_timer_pending K m0)) ∧
        (k % 256 ≠ 0 → poll_and_step K E ctr mk = ⟨E.vm_step mk, [Call.vm_step]⟩) ∧
        (Call.virtio_net_refresh_queue ∈ calls ↔
          k % 256 = 0 ∧ K.HAS_VIRTIONET = true)) ∧
    (∀ (k ctr : Nat) (mk : Machine D), loop_entry K E k 0 m = some (ctr, mk) → k ≤ fuel →
      (semu_loop K E fuel m).iters.drop k = (run_loop K E (fuel - k) ctr mk).iters ∧
      (semu_loop K E fuel m).m = (run_loop K E (fuel - k) ctr mk).m ∧
      (semu_loop K E fuel m).tail = (run_loop K E (fuel - k) ctr mk).tail ∧
      (semu_loop K E fuel m).exit = (run_loop K E (fuel - k) ctr mk).exit) := by
  have e : ∀ k, (0 + 255 * k) % 256 = 0 ↔ k % 256 = 0 := by intro k; omega
  have hall := fun k calls h => run_loop_iters K E fuel 0 m k calls (by decide) h
  refine ⟨?_, ?_, ?_, ?_⟩
  · intro k calls h
    have := hall k calls h
    exact ⟨this.1.trans (e k), this.2.1, fun hk => this.2.2.1 ((e k).2 hk),
      fun hk => this.2.2.2.1 (fun h0 => hk ((e k).1 h0))⟩
  · intro n hn
    constructor
    · exact flatten_take_count Call.vm_step (fun _ => 1) (fun n => n) _
        (fun k c h => (hall k c h).2.1) rfl (fun _ => rfl) n hn
    · refine flatten_take_count Call.u8250_check_ready
        (fun k => if k % 256 = 0 then 1 else 0) (fun n => (n + 255) / 256) _
        (fun k c h => ?_) (by decide) (fun n => ?_) n hn
      · have := (hall k c h).2.2.2.2
        rw [this]
        show (if (0 + 255 * k) % 256 = 0 then 1 else 0) = (if k % 256 = 0 then 1 else 0)
        by_cases hk : k % 256 = 0
        · rw [if_pos hk, if_pos ((e k).2 hk)]
        · rw [if_neg hk, if_neg (fun h0 => hk ((e k).1 h0))]
      · show (n + 1 + 255) / 256 = (n + 255) / 256 + (if n % 256 = 0 then 1 else 0)
        split <;> omega
  · intro k calls h
    obtain ⟨c, mk, h1, h2, h3, h4⟩ := run_loop_entry K E fuel 0 m k calls (by decide) h
    have hc : c = 0 ↔ k % 256 = 0 := by rw [h3]; exact e k
    refine ⟨c, mk, h1, h2, hc, h4, ?_, ?_, ?_, ?_⟩
    · intro hk
      have h0 : c = 0 := hc.2 hk
      unfold poll_and_step
      simp [h0]
    · intro hk
      have h0 : c = 0 := hc.2 hk
      obtain ⟨m0, hm0⟩ : ∃ m0 : Machine D,
          (peripheral_poll K E ⟨mk, []⟩).m = update_timer_pending K m0 := ⟨_, rfl⟩
      refine ⟨m0, ?_⟩
      unfold poll_and_step
      simp [h0, Sys.call, hm0]
    · intro hk
      have h0 : c ≠ 0 := fun h0 => hk (hc.1 h0)
      unfold poll_and_step
      simp [h0, Sys.call]
    · rw [h4, loop_body_refresh, hc]
  · intro k ctr mk h hk
    exact run_loop_from_entry K E k fuel 0 m ctr mk h hk

set_option maxRecDepth 100000 in
/-- An instance of `poll_interval`: in a run of 300 iterations of the sample
environment, iteration 256 is `u8250_check_ready`, `virtio_net_refresh_queue`,
`vm_step`, so it polls, and 256 mod 256 = 0; the first 257 iterations hold two
polls; iteration 255 is entered with counter 1 and iteration 256 with counter
0. -/
theorem poll_interval_iteration_256 :
    (semu_loop stdConsts (sampleExt stdConsts) 300 zeroMachine).iters[256]? =
      some [Call.u8250_check_ready, Call.virtio_net_refresh_queue, Call.vm_step] ∧
    (Call.u8250_check_ready ∈
        [Call.u8250_check_ready, Call.virtio_net_refresh_queue, Call.vm_step] ↔
      256 % 256 = 0) ∧
    (((semu_loop stdConsts (sampleExt stdConsts) 300 zeroMachine).iters.take 257).flatten).count
      Call.u8250_check_ready = 2 ∧
    (Call.virtio_net_refresh_queue ∈
        [Call.u8250_check_ready, Call.virtio_net_refresh_queue, Call.vm_step] ↔
      256 % 256 = 0 ∧ stdConsts.HAS_VIRTIONET = true) ∧
    (loop_entry stdConsts (sampleExt stdConsts) 255 0 zeroMachine).map Prod.fst = some 1 ∧
    (loop_entry stdConsts (sampleExt stdConsts) 256 0 zeroMachine).map Prod.fst = some 0 :=
  ⟨by decide,
    ((poll_interval stdConsts (sampleExt stdConsts) 300 zeroMachine).1 256
      [Call.u8250_check_ready, Call.virtio_net_refresh_queue, Call.vm_step]
      (by decide)).1,
    ((poll_interval stdConsts (sampleExt stdConsts) 300 zeroMachine).2.1 257 (by decide)).2,
    (by
      obtain ⟨_, _, _, _, _, _, _, _, _, h⟩ :=
        (poll_interval stdConsts (sampleExt stdConsts) 300 zeroMachine).2.2.1 256
          [Call.u8250_check_ready, Call.virtio_net_refresh_queue, Call.vm_step] (by decide)
      exact h),
    by decide, by decide⟩

/-! ## C9: error dispatch of the main loop -/

/-- C9. Main-loop error dispatch: for the machine `s.m` that `vm_step` left,
with `ERR_NONE` = 0 and `ERR_EXCEPTION` different from it, the rest of the loop
body does exactly one of four things. If `error = ERR_NONE` it calls nothing
and continues. If `error = ERR_EXCEPTION` and `exc_cause = RV_EXC_ECALL_S` it
calls `handle_sbi_ecall` (only) and continues. If `error = ERR_EXCEPTION` with
another cause it calls `vm_trap` (only) and continues. For any other error it
calls `vm_error_report` and returns 2; the run then ends at once with return
code 2: the iteration with the fatal error is the last one, it holds a single
`vm_step`, nothing is called after the loop, and `save_all` is called
nowhere. -/
theorem loop_error_dispatch {D : Type} (K : Consts) (E : Ext D)
    (hN : K.ERR_NONE = 0) (hE : K.ERR_EXCEPTION ≠ K.ERR_NONE) :
    (∀ s : Sys D, s.m.vm.error = K.ERR_NONE → dispatch K E s = (s, none)) ∧
    (∀ s : Sys D, s.m.vm.error = K.ERR_EXCEPTION → s.m.vm.exc_cause = K.RV_EXC_ECALL_S →
      dispatch K E s = (⟨handle_sbi_ecall K s.m, s.log ++ [Call.handle_sbi_ecall]⟩, none)) ∧
    (∀ s : Sys D, s.m.vm.error = K.ERR_EXCEPTION → s.m.vm.exc_cause ≠ K.RV_EXC_ECALL_S →
      dispatch K E s = (⟨E.vm_trap s.m, s.log ++ [Call.vm_trap]⟩, none)) ∧
    (∀ s : Sys D, s.m.vm.error ≠ K.ERR_NONE → s.m.vm.error ≠ K.ERR_EXCEPTION →
      dispatch K E s = (⟨E.vm_error_report s.m, s.log ++ [Call.vm_error_report]⟩, some 2)) ∧
    (∀ (fuel ctr : Nat) (m : Machine D), m.emu.stopped = false →
      (poll_and_step K E ctr m).m.vm.error ≠ K.ERR_NONE →
      (poll_and_step K E ctr m).m.vm.error ≠ K.ERR_EXCEPTION →
      run_loop K E (fuel + 1) ctr m =
        ⟨E.vm_error_report (poll_and_step K E ctr m).m,
         [(poll_and_step K E ctr m).log ++ [Call.vm_error_report]], [], Exit.returned 2⟩ ∧
      ((poll_and_step K E ctr m).log ++ [Call.vm_error_report]).count Call.vm_step = 1 ∧
      Call.save_all ∉ (poll_and_step K E ctr m).log ++ [Call.vm_error_report]) := by
  rw [hN] at hE
  have h4 : ∀ s : Sys D, s.m.vm.error ≠ K.ERR_NONE → s.m.vm.error ≠ K.ERR_EXCEPTION →
      dispatch K E s =
        (⟨E.vm_error_report s.m, s.log ++ [Call.vm_error_report]⟩, some 2) := by
    intro s h1 h2
    rw [hN] at h1
    unfold dispatch
    rw [if_neg h1, if_neg (fun h => h2 h.1), if_neg h2]
    rfl
  refine ⟨?_, ?_, ?_, h4, ?_⟩
  · intro s h
    rw [hN] at h
    unfold dispatch
    rw [if_pos h]
  · intro s h1 h2
    unfold dispatch
    rw [if_neg (by rw [h1]; exact hE), if_pos ⟨h1, h2⟩]
    rfl
  · intro s h1 h2
    unfold dispatch
    rw [if_neg (by rw [h1]; exact hE), if_neg (fun h => h2 h.2), if_pos h1]
    rfl
  · intro fuel ctr m hs h1 h2
    have hd := h4 (poll_and_step K E ctr m) h1 h2
    have hb := loop_body_calls K E ctr m
    have hcalls : (loop_body K E ctr m).calls =
        (poll_and_step K E ctr m).log ++ [Call.vm_error_report] := by
      show (dispatch K E (poll_and_step K E ctr m)).1.log = _
      rw [hd]
    have hexit : (loop_body K E ctr m).exit = some 2 := by
      show (dispatch K E (poll_and_step K E ctr m)).2 = _
      rw [hd]
    have hm : (loop_body K E ctr m).m = E.vm_error_report (poll_and_step K E ctr m).m := by
      show (dispatch K E (poll_and_step K E ctr m)).1.m = _
      rw [hd]
    refine ⟨?_, ?_, ?_⟩
    · rw [run_loop_succ, if_neg (by rw [hs]; decide), hexit]
      simp only [hcalls, hm]
    · rw [← hcalls]; exact hb.2.1
    · rw [← hcalls]; exact hb.2.2.2.2.1

/-- An instance of `loop_error_dispatch`: in an environment whose `vm_step`
leaves the fatal error code 2, the first iteration polls, steps, calls
`vm_error_report`, and the run ends with return code 2 without `save_all`. -/
theorem loop_error_dispatch_fatal_run :
    stdConsts.ERR_NONE = 0 ∧ stdConsts.ERR_EXCEPTION ≠ stdConsts.ERR_NONE ∧
    run_loop stdConsts
        { sampleExt stdConsts with
          vm_step := fun m => { m with vm := { m.vm with error := 2 } } } 5 0 zeroMachine =
      ⟨{ zeroMachine with vm := { zeroMachine.vm with error := 2 } },
       [[Call.u8250_check_ready, Call.virtio_net_refresh_queue, Call.vm_step,
         Call.vm_error_report]], [], Exit.returned 2⟩ :=
  ⟨rfl, by decide,
    ((loop_error_dispatch stdConsts
        { sampleExt stdConsts with
          vm_step := fun m => { m with vm := { m.vm with error := 2 } } }
        rfl (by decide)).2.2.2.2 4 0 zeroMachine rfl (by decide) (by decide)).1⟩

/-! ## C3: the program counter across an SBI call -/

/-- C3, counterexample. For the machine of scenario S4 as `vm_step` leaves it
(`error = ERR_EXCEPTION`, `exc_cause = RV_EXC_ECALL_S`, `pc = 0x1000`), the
loop services the ecall by calling `handle_sbi_ecall` and continuing, and
`pc` is still 0x1000 afterwards, not 0x1004. -/
theorem sbi_service_pc_counterexample :
    (ecallMachine 0x1000 0x54494D45 0 100 0).vm.error = stdConsts.ERR_EXCEPTION ∧
    (ecallMachine 0x1000 0x54494D45 0 100 0).vm.exc_cause = stdConsts.RV_EXC_ECALL_S ∧
    (ecallMachine 0x1000 0x54494D45 0 100 0).vm.pc = 0x1000 ∧
    (dispatch stdConsts (sampleExt stdConsts)
      ⟨ecallMachine 0x1000 0x54494D45 0 100 0, []⟩).1.log = [Call.handle_sbi_ecall] ∧
    (dispatch stdConsts (sampleExt stdConsts)
      ⟨ecallMachine 0x1000 0x54494D45 0 100 0, []⟩).2 = none ∧
    (dispatch stdConsts (sampleExt stdConsts)
      ⟨ecallMachine 0x1000 0x54494D45 0 100 0, []⟩).1.m.vm.pc = 0x1000 ∧
    (dispatch stdConsts (sampleExt stdConsts)
      ⟨ecallMachine 0x1000 0x54494D45 0 100 0, []⟩).1.m.vm.pc ≠ (0x1000 + 4) % 4294967296 :=
  ⟨rfl, rfl, rfl, rfl, rfl, rfl, by decide⟩

/-- C3, amended. When `vm_step` has returned with `error = ERR_EXCEPTION`
(a non-zero code) and `exc_cause = RV_EXC_ECALL_S`, the loop services the
ecall by calling `handle_sbi_ecall` and continuing, and this leaves the
program counter equal to the value it had when the servicing began: neither
`handle_sbi_ecall` nor the loop writes `pc`. -/
theorem sbi_service_keeps_pc {D : Type} (K : Consts) (E : Ext D) (s : Sys D)
    (hE : K.ERR_EXCEPTION ≠ 0)
    (h1 : s.m.vm.error = K.ERR_EXCEPTION)
    (h2 : s.m.vm.exc_cause = K.RV_EXC_ECALL_S) :
    dispatch K E s = (⟨handle_sbi_ecall K s.m, s.log ++ [Call.handle_sbi_ecall]⟩, none) ∧
    (handle_sbi_ecall K s.m).vm.pc = s.m.vm.pc ∧
    (dispatch K E s).1.m.vm.pc = s.m.vm.pc := by
  have hd : dispatch K E s =
      (⟨handle_sbi_ecall K s.m, s.log ++ [Call.handle_sbi_ecall]⟩, none) := by
    unfold dispatch
    rw [if_neg (by rw [h1]; exact hE), if_pos ⟨h1, h2⟩]
    rfl
  have hpc : (handle_sbi_ecall K s.m).vm.pc = s.m.vm.pc := by
    simp [handle_sbi_ecall, sbi_dispatch_vm]
  refine ⟨hd, hpc, ?_⟩
  rw [hd]
  exact hpc

/-- An instance of `sbi_service_keeps_pc`: scenario S4 with `pc = 0x1000`. -/
theorem sbi_service_keeps_pc_S4 :
    (ecallMachine 0x1000 0x54494D45 0 100 0).vm.error = stdConsts.ERR_EXCEPTION ∧
    (ecallMachine 0x1000 0x54494D45 0 100 0).vm.exc_cause = stdConsts.RV_EXC_ECALL_S ∧
    (dispatch stdConsts (sampleExt stdConsts)
      ⟨ecallMachine 0x1000 0x54494D45 0 100 0, []⟩).1.m.vm.pc = 0x1000 :=
  ⟨rfl, rfl,
    (sbi_service_keeps_pc stdConsts (sampleExt stdConsts)
      ⟨ecallMachine 0x1000 0x54494D45 0 100 0, []⟩ (by decide) rfl rfl).2.2⟩

/-! ## C4: system reset and the end of the loop -/

theorem peripheral_poll_ends_with_timer {D : Type} (K : Consts) (E : Ext D) (s : Sys D) :
    ∃ m0 : Machine D, (peripheral_poll K E s).m = update_timer_pending K m0 :=
  ⟨_, rfl⟩

theorem timer_compare {D : Type} (m : Machine D)
    (hlo : m.vm.insn_count < 4294967296) (htl : m.emu.timer_lo < 4294967296) :
    (m.vm.insn_count_hi > m.emu.timer_hi ∨
      (m.vm.insn_count_hi = m.emu.timer_hi ∧ m.vm.insn_count > m.emu.timer_lo)) ↔
    m.vm.insn_count_hi * 4294967296 + m.vm.insn_count >
      m.emu.timer_hi * 4294967296 + m.emu.timer_lo := by
  omega

/-- C7, counterexample. With the instruction counter equal to the timer
(both 100) and the supervisor-timer bit (bit 5, mask 32) set in `sip`, the
recomputation clears the bit although counter ≥ timer. -/
theorem timer_pending_counterexample :
    stdConsts.RV_INT_STI_BIT = 2 ^ 5 ∧
    (timerMachine 100 0 100 0 32).vm.insn_count_hi * 4294967296 +
        (timerMachine 100 0 100 0 32).vm.insn_count ≥
      (timerMachine 100 0 100 0 32).emu.timer_hi * 4294967296 +
        (timerMachine 100 0 100 0 32).emu.timer_lo ∧
    (update_timer_pending stdConsts (timerMachine 100 0 100 0 32)).vm.sip = 0 ∧
    (update_timer_pending stdConsts (timerMachine 100 0 100 0 32)).vm.sip.testBit 5 = false :=
  ⟨by decide, by decide, by decide, by decide⟩

theorem update_timer_pending_bit {D : Type} (K : Consts) (m : Machine D) (i : Nat)
    (hi : i < 32) (hB : K.RV_INT_STI_BIT = 2 ^ i)
    (hlo : m.vm.insn_count < 4294967296) (htl : m.emu.timer_lo < 4294967296) :
    (update_timer_pending K m).vm.sip.testBit i = true ↔
      m.vm.insn_count_hi * 4294967296 + m.vm.insn_count >
        m.emu.timer_hi * 4294967296 + m.emu.timer_lo := by
  have hcmp := timer_compare m hlo htl
  have hpow : (2 : Nat) ^ i < 4294967296 := by
    have : (2 : Nat) ^ i < 2 ^ 32 := Nat.pow_lt_pow_right (by decide) hi
    simpa using this
  have hmod : (2 : Nat) ^ i % 4294967296 = 2 ^ i := Nat.mod_eq_of_lt hpow
  have hfull : (4294967295 : Nat) = 2 ^ 32 - 1 := by norm_num
  unfold update_timer_pending
  split_ifs with h
  · have : ((m.vm.sip ||| 2 ^ i) % 4294967296).testBit i = true := by
      rw [show (4294967296 : Nat) = 2 ^ 32 by norm_num, Nat.testBit_mod_two_pow,
        Nat.testBit_or, Nat.testBit_two_pow_self]
      simp [hi]
    simp only [hB]
    exact ⟨fun _ => hcmp.1 h, fun _ => this⟩
  · have : (m.vm.sip &&& not32 (2 ^ i)).testBit i = false := by
      unfold not32
      rw [hmod, hfull, Nat.testBit_and, Nat.testBit_xor, Nat.testBit_two_pow_sub_one,
        Nat.testBit_two_pow_self]
      simp [hi]
    simp only [hB]
    constructor
    · intro h1
      rw [this] at h1
      cases h1
    · intro h1
      exact absurd (hcmp.2 h1) h

theorem update_timer_pending_other_bits {D : Type} (K : Consts) (m : Machine D) (i : Nat)
    (hi : i < 32) (hB : K.RV_INT_STI_BIT = 2 ^ i) (hsip : m.vm.sip < 4294967296)
    (j : Nat) (hj : j ≠ i) :
    (update_timer_pending K m).vm.sip.testBit j = m.vm.sip.testBit j := by
  have hpow : (2 : Nat) ^ i < 4294967296 := by
    have : (2 : Nat) ^ i < 2 ^ 32 := Nat.pow_lt_pow_right (by decide) hi
    simpa using this
  have hmod : (2 : Nat) ^ i % 4294967296 = 2 ^ i := Nat.mod_eq_of_lt hpow
  have hfull : (4294967295 : Nat) = 2 ^ 32 - 1 := by norm_num
  have hhigh : ¬ j < 32 → m.vm.sip.testBit j = false := by
    intro hj
    apply Nat.testBit_lt_two_pow
    calc m.vm.sip < 2 ^ 32 := by simpa using hsip
      _ ≤ 2 ^ j := Nat.pow_le_pow_right (by decide) (by omega)
  unfold update_timer_pending
  split_ifs with h
  · simp only [hB]
    rw [show (4294967296 : Nat) = 2 ^ 32 by norm_num, Nat.testBit_mod_two_pow,
      Nat.testBit_or, Nat.testBit_two_pow_of_ne (Ne.symm hj)]
    by_cases hj32 : j < 32
    · simp [hj32]
    · simp [hj32, hhigh hj32]
  · simp only [hB]
    unfold not32
    rw [hmod, hfull, Nat.testBit_and, Nat.testBit_xor, Nat.testBit_two_pow_sub_one,
      Nat.testBit_two_pow_of_ne (Ne.symm hj)]
    by_cases hj32 : j < 32
    · simp [hj32]
    · simp [hj32, hhigh hj32]

theorem update_timer_pending_frame {D : Type} (K : Consts) (m : Machine D) :
    (update_timer_pending K m).vm.insn_count = m.vm.insn_count ∧
    (update_timer_pending K m).vm.insn_count_hi = m.vm.insn_count_hi ∧
    (update_timer_pending K m).emu = m.emu := by
  unfold update_timer_pending
  split_ifs <;> exact ⟨rfl, rfl, rfl⟩

/-- C7, amended. Timer-pending bit, with `RV_INT_STI_BIT = 2 ^ i`, `i < 32`.
For every machine with 32-bit `insn_count` and `timer_lo`, right after the
recomputation of timer-pending the supervisor-timer bit of `sip` is set if and
only if the 64-bit instruction counter `insn_count_hi * 2^32 + insn_count` is
strictly greater than the 64-bit timer `timer_hi * 2^32 + timer_lo`; every
other bit of a 32-bit `sip` is as it was before the recomputation. The poll
block ends with the recomputation, so the machine it leaves has the bit set
if and only if its counter is strictly greater than its timer. -/
theorem timer_pending_bit {D : Type} (K : Consts) (i : Nat)
    (hi : i < 32) (hB : K.RV_INT_STI_BIT = 2 ^ i) :
    (∀ m : Machine D, m.vm.insn_count < 4294967296 → m.emu.timer_lo < 4294967296 →
      ((update_timer_pending K m).vm.sip.testBit i = true ↔
        m.vm.insn_count_hi * 4294967296 + m.vm.insn_count >
          m.emu.timer_hi * 4294967296 + m.emu.timer_lo)) ∧
    (∀ m : Machine D, m.vm.sip < 4294967296 → ∀ j, j ≠ i →
      (update_timer_pending K m).vm.sip.testBit j = m.vm.sip.testBit j) ∧
    (∀ (E : Ext D) (s : Sys D),
      (peripheral_poll K E s).m.vm.insn_count < 4294967296 →
      (peripheral_poll K E s).m.emu.timer_lo < 4294967296 →
      ((peripheral_poll K E s).m.vm.sip.testBit i = true ↔
        (peripheral_poll K E s).m.vm.insn_count_hi * 4294967296 +
            (peripheral_poll K E s).m.vm.insn_count >
          (peripheral_poll K E s).m.emu.timer_hi * 4294967296 +
            (peripheral_poll K E s).m.emu.timer_lo)) := by
  refine ⟨fun m hlo htl => update_timer_pending_bit K m i hi hB hlo htl,
    fun m hsip j hj => update_timer_pending_other_bits K m i hi hB hsip j hj, ?_⟩
  intro E s
  obtain ⟨m0, h0⟩ := peripheral_poll_ends_with_timer K E s
  rw [h0]
  obtain ⟨f1, f2, f3⟩ := update_timer_pending_frame K m0
  rw [f1, f2, f3]
  exact fun hlo htl => update_timer_pending_bit K m0 i hi hB hlo htl

/-- An instance of `timer_pending_bit`: counter 101 against timer 100 sets
bit 5 of a `sip` that was 512, and bit 9 stays set. -/
theorem timer_pending_bit_sample :
    (timerMachine 101 0 100 0 512).vm.insn_count_hi * 4294967296 +
        (timerMachine 101 0 100 0 512).vm.insn_count >
      (timerMachine 101 0 100 0 512).emu.timer_hi * 4294967296 +
        (timerMachine 101 0 100 0 512).emu.timer_lo ∧
    (update_timer_pending stdConsts (timerMachine 101 0 100 0 512)).vm.sip.testBit 5 = true ∧
    (update_timer_pending stdConsts (timerMachine 101 0 100 0 512)).vm.sip.testBit 9 = true :=
  ⟨by decide,
    ((timer_pending_bit stdConsts 5 (by decide) (by decide)).1
      (timerMachine 101 0 100 0 512) (by decide) (by decide)).2 (by decide),
    ((timer_pending_bit stdConsts 5 (by decide) (by decide)).2.1
      (timerMachine 101 0 100 0 512) (by decide) 9 (by decide)).trans (by decide)⟩

/-! ## Address decoder: facts -/

theorem top_nibble_eq (a : Nat) : a >>> 28 = a / 268435456 := by
  rw [Nat.shiftRight_eq_div_pow]

theorem region_eq (a : Nat) : (a >>> 20) &&& MASK 8 = a / 1048576 % 256 := by
  unfold MASK
  rw [Nat.and_pow_two_sub_one_eq_mod, Nat.shiftRight_eq_div_pow]

theorem word_address_eq (a : Nat) (h : a < 4294967296) :
    a &&& 0xfffffffc = 4 * (a >>> 2) := by
  apply Nat.eq_of_testBit_eq
  intro i
  have h4 : (4 : Nat) = 2 ^ 2 := by norm_num
  rw [Nat.testBit_and, h4, Nat.testBit_mul_pow_two, Nat.testBit_shiftRight]
  have hm : (0xfffffffc : Nat).testBit i = (decide (2 ≤ i) && decide (i < 32)) := by
    by_cases h2 : i < 32
    · interval_cases i <;> decide
    · have : (0xfffffffc : Nat).testBit i = false := by
        apply Nat.testBit_lt_two_pow
        calc (0xfffffffc : Nat) < 2 ^ 32 := by norm_num
          _ ≤ 2 ^ i := Nat.pow_le_pow_right (by decide) (by omega)
      simp [this, h2]
  rw [hm]
  by_cases h2 : 2 ≤ i
  · by_cases h3 : i < 32
    · simp [h2, h3]
    · have : a.testBit i = false := by
        apply Nat.testBit_lt_two_pow
        calc a < 2 ^ 32 := by simpa using h
          _ ≤ 2 ^ i := Nat.pow_le_pow_right (by decide) (by omega)
      have h5 : 2 + (i - 2) = i := by omega
      simp [h2, h3, this, h5]
  · simp [h2]

theorem mem_load_fault {D : Type} (K : Consts) (E : Ext D) (s : Sys D)
    (a width value : Nat) (hram : K.RAM_SIZE ≤ a)
    (h : a / 268435456 ≠ 15 ∨
      (a / 1048576 % 256 ≠ 0 ∧ a / 1048576 % 256 ≠ 2 ∧ a / 1048576 % 256 ≠ 64 ∧
        (K.HAS_VIRTIONET = true → a / 1048576 % 256 ≠ 65) ∧
        (K.HAS_VIRTIOBLK = true → a / 1048576 % 256 ≠ 66))) :
    mem_load K E s a width value = (raise_exception E s K.RV_EXC_LOAD_FAULT, value) := by
  unfold mem_load
  rw [if_neg (by omega)]
  simp only [top_nibble_eq, region_eq]
  rcases h with h | ⟨h0, h2, h64, h65, h66⟩
  · rw [if_neg h]
  · by_cases ht : a / 268435456 = 15
    · rw [if_pos ht, if_neg (fun c => c.elim h0 h2), if_neg h64,
        if_neg (fun c => h65 c.1 c.2), if_neg (fun c => h66 c.1 c.2)]
    · rw [if_neg ht]

theorem mem_store_fault {D : Type} (K : Consts) (E : Ext D) (s : Sys D)
    (a width value : Nat) (hram : K.RAM_SIZE ≤ a)
    (h : a / 268435456 ≠ 15 ∨
      (a / 1048576 % 256 ≠ 0 ∧ a / 1048576 % 256 ≠ 2 ∧ a / 1048576 % 256 ≠ 64 ∧
        (K.HAS_VIRTIONET = true → a / 1048576 % 256 ≠ 65) ∧
        (K.HAS_VIRTIOBLK = true → a / 1048576 % 256 ≠ 66))) :
    mem_store K E s a width value = raise_exception E s K.RV_EXC_STORE_FAULT := by
  unfold mem_store
  rw [if_neg (by omega)]
  simp only [top_nibble_eq, region_eq]
  rcases h with h | ⟨h0, h2, h64, h65, h66⟩
  · rw [if_neg h]
  · by_cases ht : a / 268435456 = 15
    · rw [if_pos ht, if_neg (fun c => c.elim h0 h2), if_neg h64,
        if_neg (fun c => h65 c.1 c.2), if_neg (fun c => h66 c.1 c.2)]
    · rw [if_neg ht]

theorem mem_load_plic {D : Type} (K : Consts) (E : Ext D) (s : Sys D)
    (a width value : Nat) (hram : K.RAM_SIZE ≤ a) (htop : a / 268435456 = 15)
    (h : a / 1048576 % 256 = 0 ∨ a / 1048576 % 256 = 2) :
    mem_load K E s a width value =
      (⟨E.plic_update_interrupts (E.plic_read s.m (a &&& 0x3FFFFFF) width value).1,
        s.log ++ [Call.plic_read (a &&& 0x3FFFFFF) width, Call.plic_update_interrupts]⟩,
       (E.plic_read s.m (a &&& 0x3FFFFFF) width value).2) := by
  unfold mem_load
  rw [if_neg (by omega)]
  simp only [top_nibble_eq, region_eq]
  rw [if_pos htop, if_pos h]
  simp [Sys.call, Sys.callv]

theorem mem_store_plic {D : Type} (K : Consts) (E : Ext D) (s : Sys D)
    (a width value : Nat) (hram : K.RAM_SIZE ≤ a) (htop : a / 268435456 = 15)
    (h : a / 1048576 % 256 = 0 ∨ a / 1048576 % 256 = 2) :
    mem_store K E s a width value =
      ⟨E.plic_update_interrupts (E.plic_write s.m (a &&& 0x3FFFFFF) width value),
        s.log ++ [Call.plic_write (a &&& 0x3FFFFFF) width value,
          Call.plic_update_interrupts]⟩ := by
  unfold mem_store
  rw [if_neg (by omega)]
  simp only [top_nibble_eq, region_eq]
  rw [if_pos htop, if_pos h]
  simp [Sys.call]

/-! ## C5: the PLIC region -/

/-- C5, counterexample. Address 0xF0100000 lies in 0xF0000000..0xF3FFFFFF,
but its 1 MiB region number is 0x01, which is neither of the two `case`
labels 0x0 and 0x2: `mem_load` and `mem_store` call no PLIC handler and raise
the load (5) and store (7) access fault. -/
theorem plic_region_counterexample :
    0xF0000000 ≤ 0xF0100000 ∧ 0xF0100000 ≤ 0xF3FFFFFF ∧
    (mem_load stdConsts (sampleExt stdConsts) ⟨zeroMachine, []⟩ 0xF0100000 4 0).1.log =
      [Call.vm_set_exception stdConsts.RV_EXC_LOAD_FAULT 0] ∧
    (mem_load stdConsts (sampleExt stdConsts) ⟨zeroMachine, []⟩ 0xF0100000 4 0).1.m.vm.error =
      stdConsts.ERR_EXCEPTION ∧
    (mem_store stdConsts (sampleExt stdConsts) ⟨zeroMachine, []⟩ 0xF0100000 4 0).log =
      [Call.vm_set_exception stdConsts.RV_EXC_STORE_FAULT 0] ∧
    (mem_store stdConsts (sampleExt stdConsts) ⟨zeroMachine, []⟩ 0xF0100000 4 0).m.vm.error =
      stdConsts.ERR_EXCEPTION :=
  ⟨by decide, by decide, by decide, by decide, by decide, by decide⟩

/-- C5, amended. PLIC region of the physical memory map, with RAM ending at
or below 0xF0000000: for every address `a` in 0xF0000000..0xF00FFFFF or in
0xF0200000..0xF02FFFFF (the 1 MiB regions 0x0 and 0x2 of the MMIO window) and
every width, `mem_load` calls `plic_read` and `mem_store` calls `plic_write`
with offset `a & 0x3FFFFFF`, then `plic_update_interrupts`, and the decoder
itself calls nothing else, so raises no access fault. For every other address
of 0xF0000000..0xF3FFFFFF the decoder calls no handler and raises the load or
store access fault. -/
theorem plic_region {D : Type} (K : Consts) (E : Ext D) (s : Sys D) (a width value : Nat)
    (hram : K.RAM_SIZE ≤ 0xF0000000) :
    (((0xF0000000 ≤ a ∧ a ≤ 0xF00FFFFF) ∨ (0xF0200000 ≤ a ∧ a ≤ 0xF02FFFFF)) →
      mem_load K E s a width value =
        (⟨E.plic_update_interrupts (E.plic_read s.m (a &&& 0x3FFFFFF) width value).1,
          s.log ++ [Call.plic_read (a &&& 0x3FFFFFF) width, Call.plic_update_interrupts]⟩,
         (E.plic_read s.m (a &&& 0x3FFFFFF) width value).2) ∧
      mem_store K E s a width value =
        ⟨E.plic_update_interrupts (E.plic_write s.m (a &&& 0x3FFFFFF) width value),
          s.log ++ [Call.plic_write (a &&& 0x3FFFFFF) width value,
            Call.plic_update_interrupts]⟩) ∧
    (((0xF0100000 ≤ a ∧ a ≤ 0xF01FFFFF) ∨ (0xF0300000 ≤ a ∧ a ≤ 0xF3FFFFFF)) →
      mem_load K E s a width value = (raise_exception E s K.RV_EXC_LOAD_FAULT, value) ∧
      mem_store K E s a width value = raise_exception E s K.RV_EXC_STORE_FAULT) := by
  constructor
  · intro h
    have htop : a / 268435456 = 15 := by omega
    have hreg : a / 1048576 % 256 = 0 ∨ a / 1048576 % 256 = 2 := by omega
    exact ⟨mem_load_plic K E s a width value (by omega) htop hreg,
      mem_store_plic K E s a width value (by omega) htop hreg⟩
  · intro h
    have hreg : a / 1048576 % 256 ≠ 0 ∧ a / 1048576 % 256 ≠ 2 ∧ a / 1048576 % 256 ≠ 64 ∧
        (K.HAS_VIRTIONET = true → a / 1048576 % 256 ≠ 65) ∧
        (K.HAS_VIRTIOBLK = true → a / 1048576 % 256 ≠ 66) := by
      refine ⟨?_, ?_, ?_, fun _ => ?_, fun _ => ?_⟩ <;> omega
    exact ⟨mem_load_fault K E s a width value (by omega) (Or.inr hreg),
      mem_store_fault K E s a width value (by omega) (Or.inr hreg)⟩

/-- An instance of `plic_region`: a 4-byte load and store at 0xF0200004 go to
the PLIC with offset 0x200004. -/
theorem plic_region_sample :
    (mem_load stdConsts (sampleExt stdConsts) ⟨zeroMachine, []⟩ 0xF0200004 4 0).1.log =
      [Call.plic_read 0x200004 4, Call.plic_update_interrupts] ∧
    (mem_store stdConsts (sampleExt stdConsts) ⟨zeroMachine, []⟩ 0xF0200004 4 9).log =
      [Call.plic_write 0x200004 4 9, Call.plic_update_interrupts] :=
  ⟨(congrArg (fun r => r.1.log)
      (((plic_region stdConsts (sampleExt stdConsts) ⟨zeroMachine, []⟩ 0xF0200004 4 0
        (by decide)).1 (Or.inr ⟨by decide, by decide⟩)).1)).trans (by decide),
    (congrArg (fun r => r.log)
      (((plic_region stdConsts (sampleExt stdConsts) ⟨zeroMachine, []⟩ 0xF0200004 4 9
        (by decide)).1 (Or.inr ⟨by decide, by decide⟩)).2)).trans (by decide)⟩

/-! ## C6: unmapped accesses -/

/-- C6. Unmapped accesses fault with the fault matching the operation.
`mem_fetch` at an address at or above `RAM_SIZE` calls
`vm_set_exception(vm, RV_EXC_FETCH_FAULT, vm->exc_val)` and nothing else and
leaves `*value` alone. At a 32-bit address below `RAM_SIZE` it leaves the
machine as it is, raises nothing, and delivers the RAM word with index
`addr >> 2`: `ram[addr >> 2]` in the host build, and in the C64 build the word
that `loadword_reu` reads at byte address `4 * (addr >> 2)`. For an address at
or above `RAM_SIZE` that is below 0xF0000000 or above 0xF42FFFFF, that is
outside the PLIC, UART, virtio-net and virtio-blk regions, `mem_load` calls
`vm_set_exception(vm, RV_EXC_LOAD_FAULT, vm->exc_val)` and `mem_store` calls
`vm_set_exception(vm, RV_EXC_STORE_FAULT, vm->exc_val)`, and they call no RAM
or device handler. -/
theorem unmapped_access_faults {D : Type} (K : Consts) (E : Ext D) (s : Sys D)
    (addr width value : Nat) :
    (addr ≥ K.RAM_SIZE →
      mem_fetch K E s addr value =
        (⟨E.vm_set_exception s.m K.RV_EXC_FETCH_FAULT s.m.vm.exc_val,
          s.log ++ [Call.vm_set_exception K.RV_EXC_FETCH_FAULT s.m.vm.exc_val]⟩, value)) ∧
    (addr < K.RAM_SIZE → addr < 4294967296 →
      (mem_fetch K E s addr value).1.m = s.m ∧
      (∀ cause val, Call.vm_set_exception cause val ∈ (mem_fetch K E s addr value).1.log →
        Call.vm_set_exception cause val ∈ s.log) ∧
      (K.C64 = false → (mem_fetch K E s addr value).2 = s.m.emu.ram (addr >>> 2)) ∧
      (K.C64 = true →
        (mem_fetch K E s addr value).2 = E.loadword_reu s.m (4 * (addr >>> 2)))) ∧
    (addr ≥ K.RAM_SIZE → (addr < 0xF0000000 ∨ addr > 0xF42FFFFF) →
      mem_load K E s addr width value =
        (⟨E.vm_set_exception s.m K.RV_EXC_LOAD_FAULT s.m.vm.exc_val,
          s.log ++ [Call.vm_set_exception K.RV_EXC_LOAD_FAULT s.m.vm.exc_val]⟩, value) ∧
      mem_store K E s addr width value =
        ⟨E.vm_set_exception s.m K.RV_EXC_STORE_FAULT s.m.vm.exc_val,
          s.log ++ [Call.vm_set_exception K.RV_EXC_STORE_FAULT s.m.vm.exc_val]⟩) := by
  refine ⟨?_, ?_, ?_⟩
  · intro h
    unfold mem_fetch
    rw [if_pos h]
    rfl
  · intro h h32
    have hn : ¬ addr ≥ K.RAM_SIZE := by omega
    unfold mem_fetch
    rw [if_neg hn]
    cases hc : K.C64
    · simp
    · simp [word_address_eq addr h32]
  · intro h hout
    have hreg : addr / 268435456 ≠ 15 ∨
        (addr / 1048576 % 256 ≠ 0 ∧ addr / 1048576 % 256 ≠ 2 ∧ addr / 1048576 % 256 ≠ 64 ∧
          (K.HAS_VIRTIONET = true → addr / 1048576 % 256 ≠ 65) ∧
          (K.HAS_VIRTIOBLK = true → addr / 1048576 % 256 ≠ 66)) := by
      by_cases ht : addr / 268435456 = 15
      · right
        refine ⟨?_, ?_, ?_, fun _ => ?_, fun _ => ?_⟩ <;> omega
      · left
        exact ht
    exact ⟨mem_load_fault K E s addr width value h hreg,
      mem_store_fault K E s addr width value h hreg⟩

/-- Instances of `unmapped_access_faults`. In the sample host build (512 MiB
of RAM): a fetch at the UART address 0xF4000000 raises the fetch access fault
(cause 1); a fetch at 0x1000 raises nothing and delivers `ram[0x400]`; a load
and a store at 0x80000000 raise the load (5) and store (7) access faults. In
the sample C64 build with a `loadword_reu` that delivers its address: a fetch
at 0x1002 delivers 0x1000. -/
theorem unmapped_access_faults_sample :
    (mem_fetch stdConsts (sampleExt stdConsts) ⟨zeroMachine, []⟩ 0xF4000000 77).1.log =
      [Call.vm_set_exception 1 0] ∧
    (mem_fetch stdConsts (sampleExt stdConsts) ⟨zeroMachine, []⟩ 0x1000 77).2 =
      zeroMachine.emu.ram 0x400 ∧
    (mem_load stdConsts (sampleExt stdConsts) ⟨zeroMachine, []⟩ 0x80000000 4 77).1.log =
      [Call.vm_set_exception 5 0] ∧
    (mem_store stdConsts (sampleExt stdConsts) ⟨zeroMachine, []⟩ 0x80000000 4 77).log =
      [Call.vm_set_exception 7 0] ∧
    (mem_fetch c64Consts { sampleExt c64Consts with loadword_reu := fun _ a => a }
      ⟨zeroMachine, []⟩ 0x1002 77).2 = 0x1000 :=
  ⟨(congrArg (fun r => r.1.log)
      ((unmapped_access_faults stdConsts (sampleExt stdConsts) ⟨zeroMachine, []⟩
        0xF4000000 4 77).1 (by decide))).trans (by decide),
    ((unmapped_access_faults stdConsts (sampleExt stdConsts) ⟨zeroMachine, []⟩
        0x1000 4 77).2.1 (by decide) (by decide)).2.2.1 rfl,
    (congrArg (fun r => r.1.log)
      (((unmapped_access_faults stdConsts (sampleExt stdConsts) ⟨zeroMachine, []⟩
        0x80000000 4 77).2.2 (by decide) (Or.inl (by decide))).1)).trans (by decide),
    (congrArg (fun r => r.log)
      (((unmapped_access_faults stdConsts (sampleExt stdConsts) ⟨zeroMachine, []⟩
        0x80000000 4 77).2.2 (by decide) (Or.inl (by decide))).2)).trans (by decide),
    (((unmapped_access_faults c64Consts { sampleExt c64Consts with loadword_reu := fun _ a => a }
        ⟨zeroMachine, []⟩ 0x1002 4 77).2.1 (by decide) (by decide)).2.2.2 rfl).trans
      (by decide)⟩

end Semu
